import Mathlib

/-! Runtime command surface: mock backend (`vcMock`) and `exec`.

A shallow embedding of

* `vendor/github.com/containers/virtcontainers/pkg/vcMock/vcMock.go`
  (the `VCMock` test double of the `VC` interface), and
* `exec.go` (`generateExecParams`, `execute`),

and of the helpers of `create.go` that the embedded tests exercise
(`createPIDFile`, `createCgroupsFiles`, `create`), which are defined outside the
embedded files and are modelled from the specification.

Conventions.

* A Go value of type `error` is an `Option error`; `none` is `nil`.
* A Go interface or pointer value that may be `nil` is an `Option`.
* A Go function value that may have side effects is a state transformer over
  a state type `σ`.
* Library and backend functions that are not part of the embedded files are
  fields of a record of collaborators (`Externals`, `Formatter`).
-/

set_option linter.dupNamespace false

namespace Runtime

/-! ## Errors -/

/-- Go `error` values. `errorString` is what `fmt.Errorf` builds, `ExitError` is
what `cli.NewExitError` builds, `other` is an error value of any other origin
(filesystem, JSON decoder, backend), identified by its text. -/
inductive error where
  | errorString (text : String)
  | ExitError (message : String) (exitCode : Int)
  | other (text : String)
  deriving DecidableEq, Repr

/-- The `Error()` method. -/
def error.Error : error → String
  | .errorString text => text
  | .ExitError message _ => message
  | .other text => text

deriving instance DecidableEq for Except

/-- Result of running Go code that may panic (nil dereference). -/
inductive Outcome (α : Type) where
  | returned (a : α)
  | panicked (reason : String)
  deriving DecidableEq, Repr

/-! ## Types of package `virtcontainers` used by the embedded files -/

/-- Modelled from the spec: `vc.EnvVar` is a backend-consumable key/value pair. -/
structure EnvVar where
  Var : String
  Value : String
  deriving DecidableEq, Repr

/-- The struct `vc.Cmd`, with the fields the composite literal in `execute` sets; every
other field of the Go struct is left at its zero value by that literal. -/
structure Cmd where
  Args : List String
  Envs : List EnvVar
  WorkDir : String
  User : String
  Interactive : Bool
  Console : String
  Detach : Bool
  deriving DecidableEq, Repr

/-- The struct `vc.Process`: `execute` reads only `Pid`. -/
structure Process where
  Pid : Int
  deriving DecidableEq, Repr

/-- The struct `vc.State`: `execute` reads only `State` (a `stateString`). -/
structure State where
  State : String
  deriving DecidableEq, Repr

/-- The struct `vc.ContainerStatus`: `execute` reads `ID` and `State.State`. -/
structure ContainerStatus where
  ID : String
  State : State
  deriving DecidableEq, Repr

/-- The zero value `vc.ContainerStatus{}`. -/
instance : Inhabited ContainerStatus := ⟨{ ID := "", State := { State := "" } }⟩

/-- Modelled from the spec: `vc.StateRunning` (declared outside the embedded
files) names the state "running" of the container state enum ready, running,
stopped, paused. -/
def StateRunning : String := "running"

/-- The type `syscall.Signal` is an integer type. -/
abbrev Signal := Int

/-- The types of package `virtcontainers` whose declarations the mock only
passes through: configurations, the `VCPod` / `VCContainer` interface values,
the pod status record (with its zero value `vc.PodStatus{}`) and the logger. -/
structure VCTypes where
  PodConfig : Type
  ContainerConfig : Type
  VCPod : Type
  VCContainer : Type
  PodStatus : Type
  zeroPodStatus : PodStatus
  FieldLogger : Type

/-! ## `vcMock.go` -/

/-- The struct `VCMock`: one optional handler per operation of the `VC` interface. A
handler is a Go closure, so it runs on the state `σ` of the test that
installed it. -/
structure VCMock (T : VCTypes) (σ : Type) where
  SetLoggerFunc : Option (T.FieldLogger → σ → σ) := none
  CreatePodFunc : Option (T.PodConfig → σ → (Option T.VCPod × Option error) × σ) := none
  DeletePodFunc : Option (String → σ → (Option T.VCPod × Option error) × σ) := none
  StartPodFunc : Option (String → σ → (Option T.VCPod × Option error) × σ) := none
  StopPodFunc : Option (String → σ → (Option T.VCPod × Option error) × σ) := none
  RunPodFunc : Option (T.PodConfig → σ → (Option T.VCPod × Option error) × σ) := none
  ListPodFunc : Option (σ → (List T.PodStatus × Option error) × σ) := none
  StatusPodFunc : Option (String → σ → (T.PodStatus × Option error) × σ) := none
  PausePodFunc : Option (String → σ → (Option T.VCPod × Option error) × σ) := none
  ResumePodFunc : Option (String → σ → (Option T.VCPod × Option error) × σ) := none
  CreateContainerFunc :
    Option (String → T.ContainerConfig → σ →
      (Option T.VCPod × Option T.VCContainer × Option error) × σ) := none
  DeleteContainerFunc :
    Option (String → String → σ → (Option T.VCContainer × Option error) × σ) := none
  StartContainerFunc :
    Option (String → String → σ → (Option T.VCContainer × Option error) × σ) := none
  StopContainerFunc :
    Option (String → String → σ → (Option T.VCContainer × Option error) × σ) := none
  EnterContainerFunc :
    Option (String → String → Cmd → σ →
      (Option T.VCPod × Option T.VCContainer × Option Process × Option error) × σ) := none
  StatusContainerFunc :
    Option (String → String → σ → (ContainerStatus × Option error) × σ) := none
  KillContainerFunc :
    Option (String → String → Signal → Bool → σ → Option error × σ) := none

/-- The constant `mockErrorPrefix`. -/
def mockErrorPrefix : String := "vcMock forced failure"

/-- Modelled from the spec: `getSelf` (package `vcMock`, not in the embedded
file) identifies the operation that was invoked; it is taken to return the name
of the method that calls it, which the model passes as `caller`. -/
def getSelf (caller : String) : String := caller

/-- The renderings `fmt.Errorf` produces for the operands of the mock's error
messages that are not strings or booleans: `%+v` of the receiver and `%v` of
the configuration, command and signal values. -/
structure Formatter (T : VCTypes) (σ : Type) where
  mock : VCMock T σ → String
  podConfig : T.PodConfig → String
  containerConfig : T.ContainerConfig → String
  cmd : Cmd → String
  signal : Signal → String

/-- The rendering `%v` of a Go `bool`. -/
def fmtBool (b : Bool) : String := if b then "true" else "false"

variable {T : VCTypes} {σ : Type}

/-- Method `SetLogger`: runs the handler when there is one, and returns. -/
def VCMock.SetLogger (m : VCMock T σ) (logger : T.FieldLogger) (s : σ) : σ :=
  match m.SetLoggerFunc with
  | some f => f logger s
  | none => s

/-- Method `CreatePod`. -/
def VCMock.CreatePod (F : Formatter T σ) (m : VCMock T σ) (podConfig : T.PodConfig) (s : σ) :
    (Option T.VCPod × Option error) × σ :=
  match m.CreatePodFunc with
  | some f => f podConfig s
  | none =>
    ((none, some (.errorString (mockErrorPrefix ++ ": " ++ getSelf "CreatePod" ++ " (" ++ F.mock m
      ++ "): podConfig: " ++ F.podConfig podConfig))), s)

/-- Method `DeletePod`. -/
def VCMock.DeletePod (F : Formatter T σ) (m : VCMock T σ) (podID : String) (s : σ) :
    (Option T.VCPod × Option error) × σ :=
  match m.DeletePodFunc with
  | some f => f podID s
  | none =>
    ((none, some (.errorString (mockErrorPrefix ++ ": " ++ getSelf "DeletePod" ++ " (" ++ F.mock m
      ++ "): podID: " ++ podID))), s)

/-- Method `StartPod`. -/
def VCMock.StartPod (F : Formatter T σ) (m : VCMock T σ) (podID : String) (s : σ) :
    (Option T.VCPod × Option error) × σ :=
  match m.StartPodFunc with
  | some f => f podID s
  | none =>
    ((none, some (.errorString (mockErrorPrefix ++ ": " ++ getSelf "StartPod" ++ " (" ++ F.mock m
      ++ "): podID: " ++ podID))), s)

/-- Method `StopPod`. -/
def VCMock.StopPod (F : Formatter T σ) (m : VCMock T σ) (podID : String) (s : σ) :
    (Option T.VCPod × Option error) × σ :=
  match m.StopPodFunc with
  | some f => f podID s
  | none =>
    ((none, some (.errorString (mockErrorPrefix ++ ": " ++ getSelf "StopPod" ++ " (" ++ F.mock m
      ++ "): podID: " ++ podID))), s)

/-- Method `RunPod`. -/
def VCMock.RunPod (F : Formatter T σ) (m : VCMock T σ) (podConfig : T.PodConfig) (s : σ) :
    (Option T.VCPod × Option error) × σ :=
  match m.RunPodFunc with
  | some f => f podConfig s
  | none =>
    ((none, some (.errorString (mockErrorPrefix ++ ": " ++ getSelf "RunPod" ++ " (" ++ F.mock m
      ++ "): podConfig: " ++ F.podConfig podConfig))), s)

/-- Method `ListPod`: the failure message names only the operation; the `nil`
slice is the empty list. -/
def VCMock.ListPod (m : VCMock T σ) (s : σ) : (List T.PodStatus × Option error) × σ :=
  match m.ListPodFunc with
  | some f => f s
  | none => (([], some (.errorString (mockErrorPrefix ++ ": " ++ getSelf "ListPod"))), s)

/-- Method `StatusPod`. -/
def VCMock.StatusPod (F : Formatter T σ) (m : VCMock T σ) (podID : String) (s : σ) :
    (T.PodStatus × Option error) × σ :=
  match m.StatusPodFunc with
  | some f => f podID s
  | none =>
    ((T.zeroPodStatus, some (.errorString (mockErrorPrefix ++ ": " ++ getSelf "StatusPod" ++ " ("
      ++ F.mock m ++ "): podID: " ++ podID))), s)

/-- Method `PausePod`. -/
def VCMock.PausePod (F : Formatter T σ) (m : VCMock T σ) (podID : String) (s : σ) :
    (Option T.VCPod × Option error) × σ :=
  match m.PausePodFunc with
  | some f => f podID s
  | none =>
    ((none, some (.errorString (mockErrorPrefix ++ ": " ++ getSelf "PausePod" ++ " (" ++ F.mock m
      ++ "): podID: " ++ podID))), s)

/-- Method `ResumePod`. -/
def VCMock.ResumePod (F : Formatter T σ) (m : VCMock T σ) (podID : String) (s : σ) :
    (Option T.VCPod × Option error) × σ :=
  match m.ResumePodFunc with
  | some f => f podID s
  | none =>
    ((none, some (.errorString (mockErrorPrefix ++ ": " ++ getSelf "ResumePod" ++ " (" ++ F.mock m
      ++ "): podID: " ++ podID))), s)

/-- Method `CreateContainer`. -/
def VCMock.CreateContainer (F : Formatter T σ) (m : VCMock T σ) (podID : String)
    (containerConfig : T.ContainerConfig) (s : σ) :
    (Option T.VCPod × Option T.VCContainer × Option error) × σ :=
  match m.CreateContainerFunc with
  | some f => f podID containerConfig s
  | none =>
    ((none, none, some (.errorString (mockErrorPrefix ++ ": " ++ getSelf "CreateContainer" ++ " ("
      ++ F.mock m ++ "): podID: " ++ podID ++ ", containerConfig: "
      ++ F.containerConfig containerConfig))), s)

/-- Method `DeleteContainer`. -/
def VCMock.DeleteContainer (F : Formatter T σ) (m : VCMock T σ) (podID containerID : String)
    (s : σ) : (Option T.VCContainer × Option error) × σ :=
  match m.DeleteContainerFunc with
  | some f => f podID containerID s
  | none =>
    ((none, some (.errorString (mockErrorPrefix ++ ": " ++ getSelf "DeleteContainer" ++ " ("
      ++ F.mock m ++ "): podID: " ++ podID ++ ", containerID: " ++ containerID))), s)

/-- Method `StartContainer`. -/
def VCMock.StartContainer (F : Formatter T σ) (m : VCMock T σ) (podID containerID : String)
    (s : σ) : (Option T.VCContainer × Option error) × σ :=
  match m.StartContainerFunc with
  | some f => f podID containerID s
  | none =>
    ((none, some (.errorString (mockErrorPrefix ++ ": " ++ getSelf "StartContainer" ++ " ("
      ++ F.mock m ++ "): podID: " ++ podID ++ ", containerID: " ++ containerID))), s)

/-- Method `StopContainer`. -/
def VCMock.StopContainer (F : Formatter T σ) (m : VCMock T σ) (podID containerID : String)
    (s : σ) : (Option T.VCContainer × Option error) × σ :=
  match m.StopContainerFunc with
  | some f => f podID containerID s
  | none =>
    ((none, some (.errorString (mockErrorPrefix ++ ": " ++ getSelf "StopContainer" ++ " ("
      ++ F.mock m ++ "): podID: " ++ podID ++ ", containerID: " ++ containerID))), s)

/-- Method `EnterContainer`. -/
def VCMock.EnterContainer (F : Formatter T σ) (m : VCMock T σ) (podID containerID : String)
    (cmd : Cmd) (s : σ) :
    (Option T.VCPod × Option T.VCContainer × Option Process × Option error) × σ :=
  match m.EnterContainerFunc with
  | some f => f podID containerID cmd s
  | none =>
    ((none, none, none, some (.errorString (mockErrorPrefix ++ ": " ++ getSelf "EnterContainer"
      ++ " (" ++ F.mock m ++ "): podID: " ++ podID ++ ", containerID: " ++ containerID
      ++ ", cmd: " ++ F.cmd cmd))), s)

/-- Method `StatusContainer`. -/
def VCMock.StatusContainer (F : Formatter T σ) (m : VCMock T σ) (podID containerID : String)
    (s : σ) : (ContainerStatus × Option error) × σ :=
  match m.StatusContainerFunc with
  | some f => f podID containerID s
  | none =>
    ((default, some (.errorString (mockErrorPrefix ++ ": " ++ getSelf "StatusContainer" ++ " ("
      ++ F.mock m ++ "): podID: " ++ podID ++ ", containerID: " ++ containerID))), s)

/-- Method `KillContainer`. -/
def VCMock.KillContainer (F : Formatter T σ) (m : VCMock T σ) (podID containerID : String)
    (signal : Signal) (all : Bool) (s : σ) : Option error × σ :=
  match m.KillContainerFunc with
  | some f => f podID containerID signal all s
  | none =>
    (some (.errorString (mockErrorPrefix ++ ": " ++ getSelf "KillContainer" ++ " (" ++ F.mock m
      ++ "): podID: " ++ podID ++ ", containerID: " ++ containerID ++ ", signal: "
      ++ F.signal signal ++ ", all: " ++ fmtBool all)), s)

/-- The variable `testingImpl` of `rvc-implementation_test.go`: `&vcMock.VCMock{}`. -/
def testingImpl : VCMock T σ := {}

/-- A mock failure: the error is non-nil, produced by `fmt.Errorf`, its text
begins with `mockErrorPrefix` and contains the name of the operation and the
rendering of every argument. -/
def IsMockFailure (e : Option error) (operation : String) (arguments : List String) : Prop :=
  ∃ text, e = some (.errorString text) ∧ mockErrorPrefix.data <+: text.data ∧
    operation.data <:+: text.data ∧ ∀ a ∈ arguments, a.data <:+: text.data

/-! ## Collaborators of `exec.go` -/

/-- A value given to a flag on the command line. -/
inductive FlagValue where
  | string (value : String)
  | bool (value : Bool)
  | stringSlice (values : List String)
  deriving DecidableEq, Repr

/-- The struct `cli.Context` of an `exec` invocation after parsing: the positional
arguments, and the flags that were given on the command line, under their first
name, with the value parsed for them. Every flag of `execCLICommand` has the
zero default (empty string, false, empty slice). -/
structure Context where
  args : List String
  flags : List (String × FlagValue)
  deriving DecidableEq, Repr

/-- Method `Args`. -/
def Context.Args (context : Context) : List String := context.args

/-- Method `Args.First`: the first positional argument, or the empty string. -/
def First (a : List String) : String := a.headD ""

/-- Method `Args.Tail`: the positional arguments after the first. -/
def Tail (a : List String) : List String := a.tail

/-- Method `IsSet`: the flag was given on the command line. -/
def Context.IsSet (context : Context) (name : String) : Bool :=
  (context.flags.lookup name).isSome

/-- Method `StringSlice`: the values of a repeatable flag, in the order given. -/
def Context.StringSlice (context : Context) (name : String) : List String :=
  match context.flags.lookup name with
  | some (.stringSlice values) => values
  | _ => []

/-- Method `Bool`: the value of a boolean flag, its default when not given. -/
def Context.Bool (context : Context) (name : String) : Bool :=
  match context.flags.lookup name with
  | some (.bool value) => value
  | _ => false

/-- Method `String`: the value of a string flag, its default when not given. -/
def Context.String (context : Context) (name : String) : String :=
  match context.flags.lookup name with
  | some (.string value) => value
  | _ => ""

/-- The struct `specs.User` of the OCI runtime specification. -/
structure User where
  UID : Nat
  GID : Nat
  AdditionalGids : List Nat
  Username : String
  deriving DecidableEq, Repr

/-- The struct `oci.CompatOCIProcess` (an OCI process descriptor): the fields
`generateExecParams` and `execute` read or write, and `Other` for the remaining
fields of the descriptor, which `exec.go` never touches. -/
structure CompatOCIProcess where
  Terminal : Bool
  User : User
  Args : List String
  Env : List String
  Cwd : String
  NoNewPrivileges : Bool
  ApparmorProfile : String
  Other : List (String × String)
  deriving DecidableEq, Repr

/-- The zero value `oci.CompatOCIProcess{}`. -/
instance : Inhabited CompatOCIProcess :=
  ⟨{ Terminal := false, User := { UID := 0, GID := 0, AdditionalGids := [], Username := "" },
     Args := [], Env := [], Cwd := "", NoNewPrivileges := false, ApparmorProfile := "",
     Other := [] }⟩

/-- The struct `oci.CompatOCISpec`: `execute` reads only the pointer `Process`. -/
structure CompatOCISpec where
  Process : Option CompatOCIProcess
  deriving DecidableEq, Repr

/-- The struct `os.Process`. -/
structure OSProcess where
  Pid : Int
  deriving DecidableEq, Repr

/-- The struct `os.ProcessState` of a process that was waited for:
`ExitStatus` is the value of `Sys().(syscall.WaitStatus).ExitStatus()`. -/
structure ProcessState where
  ExitStatus : Int
  deriving DecidableEq, Repr

/-- The files of the filesystem: path and content. -/
abbrev FileSystem := List (String × String)

/-- Function `ioutil.ReadFile`: the content of the file, an error when there is
no file at the path. -/
def ReadFile (fs : FileSystem) (filename : String) : Except error String :=
  match fs.lookup filename with
  | some content => .ok content
  | none => .error (.other ("open " ++ filename ++ ": no such file or directory"))

/-- The functions `exec.go` calls that are defined outside it: helpers of package
`main` (`getExistingContainerInfo`, `setupConsole`, `noNeedForOutput`,
`createPIDFile`), package `oci` (`GetOCIConfig`, `EnvVars`), the backend
(`vc.EnterContainer`), `json.Unmarshal` into a zero descriptor, `os.FindProcess`,
`(*os.Process).Wait` (which returns a nil state with every error), and the `%+v`
rendering of a container status. -/
structure Externals (T : VCTypes) where
  getExistingContainerInfo : String → Except error (ContainerStatus × String)
  GetOCIConfig : ContainerStatus → Except error CompatOCISpec
  Unmarshal : String → Except error CompatOCIProcess
  EnvVars : List String → Except error (List EnvVar)
  setupConsole : String → String → Except error String
  noNeedForOutput : Bool → Bool → Bool
  EnterContainer : String → String → Cmd →
    Option T.VCPod × Option T.VCContainer × Option Process × Option error
  createPIDFile : FileSystem → String → Int → FileSystem × Option error
  FindProcess : Int → Except error OSProcess
  Wait : OSProcess → Except error ProcessState
  fmtStatus : ContainerStatus → String

/-- Modelled from the spec: `noNeedForOutput` (package `main`, not in the embedded
file) computes whether output should be suppressed: true when detach is
requested and no terminal is allocated. `execute` takes the helper it calls
from its collaborators; this is the helper the spec describes. -/
def noNeedForOutput (detach : Bool) (tty : Bool) : Bool := detach && !tty

/-! ## `exec.go` -/

/-- The struct `execParams`. -/
structure execParams where
  ociProcess : CompatOCIProcess
  cID : String
  pidFile : String
  console : String
  consoleSock : String
  detach : Bool
  processLabel : String
  noSubreaper : Bool
  deriving DecidableEq, Repr

/-- The zero value `execParams{}`. -/
instance : Inhabited execParams :=
  ⟨{ ociProcess := default, cID := "", pidFile := "", console := "", consoleSock := "",
     detach := false, processLabel := "", noSubreaper := false }⟩

/-- Function `generateExecParams`. The baseline descriptor `specProcess` is a
pointer: dereferencing it when it is nil panics. -/
def generateExecParams (x : Externals T) (fs : FileSystem) (context : Context)
    (specProcess : Option CompatOCIProcess) : Outcome (execParams × Option error) :=
  let ctxArgs := context.Args
  let params : execParams :=
    { ociProcess := default
      cID := First ctxArgs
      pidFile := context.String "pid-file"
      console := context.String "console"
      consoleSock := context.String "console-socket"
      detach := context.Bool "detach"
      processLabel := context.String "process-label"
      noSubreaper := context.Bool "no-subreaper" }
  if context.IsSet "process" = true then
    match ReadFile fs (context.String "process") with
    | .error err => .returned (default, some err)
    | .ok fileContent =>
      match x.Unmarshal fileContent with
      | .error err => .returned (default, some err)
      | .ok ociProcess => .returned ({ params with ociProcess := ociProcess }, none)
  else
    match specProcess with
    | none => .panicked "invalid memory address or nil pointer dereference"
    | some baseline =>
      let p := baseline
      -- Override terminal
      let p := if context.IsSet "tty" then { p with Terminal := context.Bool "tty" } else p
      -- Override user
      let p :=
        if context.String "user" ≠ "" then
          { p with User := { UID := 0, GID := 0, AdditionalGids := [],
                             Username := context.String "user" } }
        else p
      -- Override env
      let p := { p with Env := p.Env ++ context.StringSlice "env" }
      -- Override cwd
      let p := if context.String "cwd" ≠ "" then { p with Cwd := context.String "cwd" } else p
      -- Override no-new-privs
      let p :=
        if context.IsSet "no-new-privs" then
          { p with NoNewPrivileges := context.Bool "no-new-privs" }
        else p
      -- Override apparmor
      let p :=
        if context.String "apparmor" ≠ "" then
          { p with ApparmorProfile := context.String "apparmor" }
        else p
      let p := { p with Args := Tail ctxArgs }
      .returned ({ params with ociProcess := p }, none)

/-- A call `execute` makes to the backend, to the PID-file publisher or to the
operating system's process table. -/
inductive Event where
  | EnterContainer (podID containerID : String) (cmd : Cmd)
  | createPIDFile (pidFilePath : String) (pid : Int)
  | FindProcess (pid : Int)
  | Wait (p : OSProcess)
  deriving DecidableEq, Repr

/-- One run of `execute`: what it returned (or that it panicked), the
filesystem it left, and the calls it made, in order. -/
structure Run where
  result : Outcome (Option error)
  fs : FileSystem
  trace : List Event
  deriving DecidableEq, Repr

/-- Function `execute`. -/
def execute (x : Externals T) (context : Context) (fs : FileSystem) : Run :=
  let containerID := First context.Args
  match x.getExistingContainerInfo containerID with
  | .error err => ⟨.returned (some err), fs, []⟩
  | .ok (status, podID) =>
  -- Retrieve OCI spec configuration.
  match x.GetOCIConfig status with
  | .error err => ⟨.returned (some err), fs, []⟩
  | .ok ociSpec =>
  match generateExecParams x fs context ociSpec.Process with
  | .panicked reason => ⟨.panicked reason, fs, []⟩
  | .returned (_, some err) => ⟨.returned (some err), fs, []⟩
  | .returned (params, none) =>
  let params := { params with cID := status.ID }
  -- container MUST be running
  if status.State.State ≠ StateRunning then
    ⟨.returned (some (.errorString ("Container " ++ params.cID ++ " is not running"))), fs, []⟩
  else
  match x.EnvVars params.ociProcess.Env with
  | .error err => ⟨.returned (some err), fs, []⟩
  | .ok envVars =>
  match x.setupConsole params.console params.consoleSock with
  | .error err => ⟨.returned (some err), fs, []⟩
  | .ok consolePath =>
  let cmd : Cmd :=
    { Args := params.ociProcess.Args
      Envs := envVars
      WorkDir := params.ociProcess.Cwd
      User := params.ociProcess.User.Username
      Interactive := params.ociProcess.Terminal
      Console := consolePath
      Detach := x.noNeedForOutput params.detach params.ociProcess.Terminal }
  let entered := [Event.EnterContainer podID params.cID cmd]
  match x.EnterContainer podID params.cID cmd with
  | (_, _, _, some err) => ⟨.returned (some err), fs, entered⟩
  | (_, _, none, none) =>
    ⟨.panicked "invalid memory address or nil pointer dereference", fs, entered⟩
  | (_, _, some process, none) =>
  -- Creation of PID file has to be the last thing done in the exec
  let published := entered ++ [Event.createPIDFile params.pidFile process.Pid]
  match x.createPIDFile fs params.pidFile process.Pid with
  | (fs1, some err) => ⟨.returned (some err), fs1, published⟩
  | (fs1, none) =>
  if !params.detach then
    match x.FindProcess process.Pid with
    | .error err => ⟨.returned (some err), fs1, published ++ [Event.FindProcess process.Pid]⟩
    | .ok p =>
      let waited := published ++ [Event.FindProcess process.Pid, Event.Wait p]
      match x.Wait p with
      | .error err =>
        ⟨.returned (some (.errorString ("Process state " ++ "<nil>" ++ ", container info "
          ++ x.fmtStatus status ++ ": " ++ err.Error))), fs1, waited⟩
      | .ok ps =>
        -- Exit code has to be forwarded in this case.
        ⟨.returned (some (.ExitError "" ps.ExitStatus)), fs1, waited⟩
  else
    ⟨.returned none, fs1, published⟩

/-! ## Helpers of `create.go` -/

/-- The host the helpers of `create.go` run on: the I/O error it reports when
asked to create a directory or to write a file at a path, if any, and its
`filepath.Join`. -/
structure Host where
  mkdirError : String → Option error
  writeError : String → Option error
  Join : String → String → String

/-- The rendering `%d` of a Go `int`: its decimal string. -/
def fmtInt (n : Int) : String := toString n

/-- Writing a whole file: it fails with the host's error for the path, leaving
the filesystem as it was; otherwise the file at the path holds exactly the given
content afterwards, whatever it held before, and no other file changes. -/
def WriteFile (host : Host) (fs : FileSystem) (filename content : String) :
    FileSystem × Option error :=
  match host.writeError filename with
  | some err => (fs, some err)
  | none => ((filename, content) :: fs.filter (fun entry => entry.1 != filename), none)

/-- Function `os.MkdirAll`: it fails with the host's error for the path; the
files of the filesystem are not affected. -/
def MkdirAll (host : Host) (fs : FileSystem) (path : String) : FileSystem × Option error :=
  match host.mkdirError path with
  | some err => (fs, some err)
  | none => (fs, none)

/-- Modelled from the spec: `createPIDFile` (package `main`, defined outside the
embedded files; only its tests and its caller `execute` are embedded). Input: a
file path (possibly empty, meaning "do nothing", returns success) and a PID. It
writes the PID's decimal string as the entire file content, overwriting any
existing file; a failure surfaces as a plain I/O error. -/
def createPIDFile (host : Host) (fs : FileSystem) (pidFilePath : String) (pid : Int) :
    FileSystem × Option error :=
  if pidFilePath = "" then (fs, none)
  else WriteFile host fs pidFilePath (fmtInt pid)

/-- Modelled from the spec: the constant `cgroupsTasksFile` (declared outside the
embedded files) names the "tasks" membership file. -/
def cgroupsTasksFile : String := "tasks"

/-- Modelled from the spec: the constant `cgroupsProcsFile` (declared outside the
embedded files) names the "procs" membership file, `cgroup.procs`. -/
def cgroupsProcsFile : String := "cgroup.procs"

/-- Modelled from the spec: `createCgroupsFiles` (package `main`, defined outside
the embedded files; only its tests are embedded). Input: the cgroup directory
paths (possibly none) and a PID. No path: success, no I/O. For each path it
ensures the directory exists and writes the PID's decimal string into the tasks
file and into the procs file within it; a failure on any path aborts with the
underlying I/O error, and what was written before is not rolled back. -/
def createCgroupsFiles (host : Host) (fs : FileSystem) (cgroupsPathList : List String)
    (pid : Int) : FileSystem × Option error :=
  match cgroupsPathList with
  | [] => (fs, none)
  | cgroupsPath :: rest =>
    match MkdirAll host fs cgroupsPath with
    | (fs1, some err) => (fs1, some err)
    | (fs1, none) =>
      match WriteFile host fs1 (host.Join cgroupsPath cgroupsTasksFile) (fmtInt pid) with
      | (fs2, some err) => (fs2, some err)
      | (fs2, none) =>
        match WriteFile host fs2 (host.Join cgroupsPath cgroupsProcsFile) (fmtInt pid) with
        | (fs3, some err) => (fs3, some err)
        | (fs3, none) => createCgroupsFiles host fs3 rest pid

/-- One run of `create`: the error it returned, the filesystem it left, the state
of the backend afterwards and the number of calls it made to the backend. -/
structure CreateRun (σ : Type) where
  result : Option error
  fs : FileSystem
  backend : σ
  backendCalls : Nat

/-- Modelled from the spec: `create` (package `main`, defined outside the embedded
files; only its test is embedded). It validates that the container ID, the
bundle path and the backend configuration are all non-empty / non-zero-value
before ever invoking the backend, and fails fast with a validation error
otherwise. It then invokes the backend (`createInBackend`, on the state `σ` of
the backend); a backend error is returned unmodified; the process the backend
created is bound back into the cgroup membership files and, last, the PID file.
`R` is the type `oci.RuntimeConfig`, `zeroConfig` its zero value, and
`cgroupsPathList` the cgroup paths of the bundle's configuration. -/
def create {R : Type} [DecidableEq R] (host : Host) (zeroConfig : R)
    (createInBackend : String → String → String → Bool → R → σ → Except error Process × σ)
    (cgroupsPathList : List String)
    (containerID bundlePath console pidFilePath : String) (detach : Bool) (runtimeConfig : R)
    (fs : FileSystem) (s : σ) : CreateRun σ :=
  if containerID = "" then
    ⟨some (.errorString "Missing container ID"), fs, s, 0⟩
  else if bundlePath = "" then
    ⟨some (.errorString "Missing bundle path"), fs, s, 0⟩
  else if runtimeConfig = zeroConfig then
    ⟨some (.errorString "Missing runtime configuration"), fs, s, 0⟩
  else
    match createInBackend containerID bundlePath console detach runtimeConfig s with
    | (.error err, s1) => ⟨some err, fs, s1, 1⟩
    | (.ok process, s1) =>
      match createCgroupsFiles host fs cgroupsPathList process.Pid with
      | (fs1, some err) => ⟨some err, fs1, s1, 1⟩
      | (fs1, none) =>
        match createPIDFile host fs1 pidFilePath process.Pid with
        | (fs2, result) => ⟨result, fs2, s1, 1⟩

/-! ## Fixtures: concrete collaborators on which the theorems are exercised -/

/-- Fixture: every pass-through backend type is a string. -/
def fixtureTypes : VCTypes :=
  { PodConfig := String, ContainerConfig := String, VCPod := String, VCContainer := String,
    PodStatus := String, zeroPodStatus := "", FieldLogger := String }

/-- Fixture: renderings for the mock's error messages. -/
def fixtureFormatter : Formatter fixtureTypes Nat :=
  { mock := fun _ => "&mock"
    podConfig := fun c => c
    containerConfig := fun c => c
    cmd := fun c => String.intercalate " " c.Args
    signal := fun n => if n = 9 then "killed" else "signal" }

/-- Fixture: the mock of the test suite, no handler wired. -/
def fixtureMock : VCMock fixtureTypes Nat := testingImpl

/-- Fixture: a mock with every handler wired; each handler counts its calls in
the state and echoes its arguments in its results. -/
def fixtureWiredMock : VCMock fixtureTypes Nat :=
  { SetLoggerFunc := some (fun _ s => s + 1)
    CreatePodFunc := some (fun podConfig s => ((some podConfig, none), s + 1))
    DeletePodFunc := some (fun podID s => ((some podID, none), s + 1))
    StartPodFunc := some (fun podID s => ((some podID, none), s + 1))
    StopPodFunc := some (fun podID s => ((some podID, none), s + 1))
    RunPodFunc := some (fun podConfig s => ((some podConfig, none), s + 1))
    ListPodFunc := some (fun s => ((["pod1"], none), s + 1))
    StatusPodFunc := some (fun podID s => ((podID, none), s + 1))
    PausePodFunc := some (fun podID s => ((some podID, none), s + 1))
    ResumePodFunc := some (fun podID s => ((some podID, none), s + 1))
    CreateContainerFunc := some (fun podID c s => ((some podID, some c, none), s + 1))
    DeleteContainerFunc := some (fun _ containerID s => ((some containerID, none), s + 1))
    StartContainerFunc := some (fun _ containerID s => ((some containerID, none), s + 1))
    StopContainerFunc := some (fun _ containerID s => ((some containerID, none), s + 1))
    EnterContainerFunc :=
      some (fun podID containerID _ s =>
        ((some podID, some containerID, some { Pid := 100 }, none), s + 1))
    StatusContainerFunc :=
      some (fun _ containerID s =>
        (({ ID := containerID, State := { State := StateRunning } }, none), s + 1))
    KillContainerFunc :=
      some (fun _ _ signal all s =>
        (if all then some (.other "cannot signal every process") else none, s + signal.toNat)) }

/-- Fixture: the baseline process descriptor recorded for the container. -/
def fixtureProcess : CompatOCIProcess :=
  { Terminal := false
    User := { UID := 1000, GID := 1000, AdditionalGids := [10], Username := "app" }
    Args := ["sh"]
    Env := ["PATH=/bin"]
    Cwd := "/home"
    NoNewPrivileges := true
    ApparmorProfile := "default-profile"
    Other := [("selinuxLabel", "system_u")] }

/-- Fixture: the process descriptor the fixture JSON decoder yields. -/
def fixtureFileProcess : CompatOCIProcess :=
  { Terminal := true
    User := { UID := 0, GID := 0, AdditionalGids := [], Username := "root" }
    Args := ["ps", "-e"]
    Env := ["TERM=xterm"]
    Cwd := "/"
    NoNewPrivileges := false
    ApparmorProfile := ""
    Other := [] }

/-- Fixture: collaborators of `execute`. The container has the given state and
belongs to pod "pod1"; the backend fails with `enterError` when there is one and
otherwise starts process 100; the PID-file publisher fails with `pidFileError`
when there is one and otherwise rewrites the file; the process exits with
status 3. -/
def fixtureExternals (state : String) (enterError pidFileError : Option error) :
    Externals fixtureTypes :=
  { getExistingContainerInfo := fun containerID =>
      if containerID = "" then .error (.other "Missing container ID")
      else .ok ({ ID := containerID, State := { State := state } }, "pod1")
    GetOCIConfig := fun _ => .ok { Process := some fixtureProcess }
    Unmarshal := fun content =>
      if content = "process-json" then .ok fixtureFileProcess
      else .error (.other "invalid character")
    EnvVars := fun env => .ok (env.map fun e => { Var := e, Value := "" })
    setupConsole := fun console _ => .ok console
    noNeedForOutput := noNeedForOutput
    EnterContainer := fun podID containerID _ =>
      match enterError with
      | some err => (none, none, none, some err)
      | none => (some podID, some containerID, some { Pid := 100 }, none)
    createPIDFile := fun fs pidFilePath _ =>
      match pidFileError with
      | some err => (fs, some err)
      | none => if pidFilePath = "" then (fs, none) else ((pidFilePath, "100") :: fs, none)
    FindProcess := fun pid => .ok { Pid := pid }
    Wait := fun _ => .ok { ExitStatus := 3 }
    fmtStatus := fun status => status.ID }

/-- Fixture: `exec --pid-file /run/pid c1 ps -e`. -/
def fixtureContext : Context :=
  { args := ["c1", "ps", "-e"], flags := [("pid-file", .string "/run/pid")] }

/-- Fixture: `exec --detach --pid-file /run/pid c1 ps -e`. -/
def fixtureDetachContext : Context :=
  { args := ["c1", "ps", "-e"],
    flags := [("detach", .bool true), ("pid-file", .string "/run/pid")] }

/-- Fixture: `exec --process /missing.json c1`, on a filesystem without that file. -/
def fixtureMissingFileContext : Context :=
  { args := ["c1"], flags := [("process", .string "/missing.json")] }

/-- Fixture: `exec --process /process.json --tty --user nobody --cwd /tmp c1 ls`. -/
def fixtureProcessFileContext : Context :=
  { args := ["c1", "ls"],
    flags := [("process", .string "/process.json"), ("tty", .bool false),
              ("user", .string "nobody"), ("cwd", .string "/tmp")] }

/-- Fixture: the filesystem holding the process descriptor file. -/
def fixtureFiles : FileSystem := [("/process.json", "process-json")]

/-- Fixture: `exec --cwd "" c1 ls`: the flag is given, with the empty value. -/
def fixtureEmptyCwdContext : Context :=
  { args := ["c1", "ls"], flags := [("cwd", .string "")] }

/-- Fixture: `exec --tty --user nobody -e A=1 -e B=2 c1 ls -l`. -/
def fixtureOverrideContext : Context :=
  { args := ["c1", "ls", "-l"],
    flags := [("tty", .bool true), ("user", .string "nobody"),
              ("env", .stringSlice ["A=1", "B=2"])] }

/-- Fixture: a host that refuses to write "/proc/pid" and joins paths with a
slash. -/
def fixtureHost : Host :=
  { mkdirError := fun _ => none
    writeError := fun path => if path = "/proc/pid" then some (.other "permission denied") else none
    Join := fun dir file => dir ++ "/" ++ file }

/-- Fixture: the backend entry of `create` over a mock: it creates the pod through
the mock's `CreatePod` and, when that succeeds, reports process 100. The
runtime configuration is a string, the zero value being the empty string. -/
def fixtureCreateBackend (m : VCMock fixtureTypes Nat) :
    String → String → String → Bool → String → Nat → Except error Process × Nat :=
  fun _ bundlePath _ _ _ s =>
    match m.CreatePod fixtureFormatter bundlePath s with
    | ((_, some err), s1) => (.error err, s1)
    | ((_, none), s1) => (.ok { Pid := 100 }, s1)

/-! ## Lemmas on message texts -/

theorem prefix_append_left {a l : List Char} (r : List Char) (h : a <+: l) : a <+: l ++ r :=
  h.trans (List.prefix_append l r)

theorem infix_append_left {a l : List Char} (r : List Char) (h : a <:+: l) : a <:+: l ++ r :=
  h.trans (List.prefix_append l r).isInfix

theorem infix_append_right (l a : List Char) : a <:+: l ++ a :=
  (List.suffix_append l a).isInfix

theorem isMockFailure_of_text (text operation : String) (arguments : List String)
    (h1 : mockErrorPrefix.data <+: text.data) (h2 : operation.data <:+: text.data)
    (h3 : ∀ a ∈ arguments, a.data <:+: text.data) :
    IsMockFailure (some (.errorString text)) operation arguments :=
  ⟨text, rfl, h1, h2, h3⟩

/-! ## The mock backend -/

/-- Claim C1. For each of the sixteen operations other than `SetLogger`: when
the operation's handler field is nil, the operation returns, for every argument
tuple, the zero value in every non-error result, leaves the state untouched, and
returns a non-nil error whose text begins with `mockErrorPrefix` and contains
the operation's name and the rendering of each of its arguments. -/
theorem mock_unset_handler_fails (F : Formatter T σ) (m : VCMock T σ) (s : σ) :
    (m.CreatePodFunc = none → ∀ podConfig, ∃ e,
      m.CreatePod F podConfig s = ((none, e), s) ∧
        IsMockFailure e "CreatePod" [F.podConfig podConfig]) ∧
    (m.DeletePodFunc = none → ∀ podID, ∃ e,
      m.DeletePod F podID s = ((none, e), s) ∧ IsMockFailure e "DeletePod" [podID]) ∧
    (m.StartPodFunc = none → ∀ podID, ∃ e,
      m.StartPod F podID s = ((none, e), s) ∧ IsMockFailure e "StartPod" [podID]) ∧
    (m.StopPodFunc = none → ∀ podID, ∃ e,
      m.StopPod F podID s = ((none, e), s) ∧ IsMockFailure e "StopPod" [podID]) ∧
    (m.RunPodFunc = none → ∀ podConfig, ∃ e,
      m.RunPod F podConfig s = ((none, e), s) ∧
        IsMockFailure e "RunPod" [F.podConfig podConfig]) ∧
    (m.ListPodFunc = none → ∃ e,
      m.ListPod s = (([], e), s) ∧ IsMockFailure e "ListPod" []) ∧
    (m.StatusPodFunc = none → ∀ podID, ∃ e,
      m.StatusPod F podID s = ((T.zeroPodStatus, e), s) ∧
        IsMockFailure e "StatusPod" [podID]) ∧
    (m.PausePodFunc = none → ∀ podID, ∃ e,
      m.PausePod F podID s = ((none, e), s) ∧ IsMockFailure e "PausePod" [podID]) ∧
    (m.ResumePodFunc = none → ∀ podID, ∃ e,
      m.ResumePod F podID s = ((none, e), s) ∧ IsMockFailure e "ResumePod" [podID]) ∧
    (m.CreateContainerFunc = none → ∀ podID containerConfig, ∃ e,
      m.CreateContainer F podID containerConfig s = ((none, none, e), s) ∧
        IsMockFailure e "CreateContainer" [podID, F.containerConfig containerConfig]) ∧
    (m.DeleteContainerFunc = none → ∀ podID containerID, ∃ e,
      m.DeleteContainer F podID containerID s = ((none, e), s) ∧
        IsMockFailure e "DeleteContainer" [podID, containerID]) ∧
    (m.StartContainerFunc = none → ∀ podID containerID, ∃ e,
      m.StartContainer F podID containerID s = ((none, e), s) ∧
        IsMockFailure e "StartContainer" [podID, containerID]) ∧
    (m.StopContainerFunc = none → ∀ podID containerID, ∃ e,
      m.StopContainer F podID containerID s = ((none, e), s) ∧
        IsMockFailure e "StopContainer" [podID, containerID]) ∧
    (m.EnterContainerFunc = none → ∀ podID containerID cmd, ∃ e,
      m.EnterContainer F podID containerID cmd s = ((none, none, none, e), s) ∧
        IsMockFailure e "EnterContainer" [podID, containerID, F.cmd cmd]) ∧
    (m.StatusContainerFunc = none → ∀ podID containerID, ∃ e,
      m.StatusContainer F podID containerID s = ((default, e), s) ∧
        IsMockFailure e "StatusContainer" [podID, containerID]) ∧
    (m.KillContainerFunc = none → ∀ podID containerID signal all, ∃ e,
      m.KillContainer F podID containerID signal all s = (e, s) ∧
        IsMockFailure e "KillContainer" [podID, containerID, F.signal signal, fmtBool all]) := by
  refine ⟨?_, ?_, ?_, ?_, ?_, ?_, ?_, ?_, ?_, ?_, ?_, ?_, ?_, ?_, ?_, ?_⟩
  all_goals
    intro h
    intros
    simp only [VCMock.CreatePod, VCMock.DeletePod, VCMock.StartPod, VCMock.StopPod,
      VCMock.RunPod, VCMock.ListPod, VCMock.StatusPod, VCMock.PausePod, VCMock.ResumePod,
      VCMock.CreateContainer, VCMock.DeleteContainer, VCMock.StartContainer,
      VCMock.StopContainer, VCMock.EnterContainer, VCMock.StatusContainer,
      VCMock.KillContainer, h]
    refine ⟨_, rfl, isMockFailure_of_text _ _ _ ?_ ?_ ?_⟩
    · simp only [String.data_append]
      repeat (first | exact List.prefix_append _ _ | apply prefix_append_left)
    · simp only [String.data_append]
      repeat (first | exact infix_append_right _ _ | apply infix_append_left)
    · simp only [List.mem_cons, List.not_mem_nil, or_false, forall_eq_or_imp, forall_eq,
        false_implies, implies_true, String.data_append, and_true]
      try (repeat' apply And.intro)
      all_goals repeat (first | exact infix_append_right _ _ | apply infix_append_left)

/-- Witness of claim C1 on the mock of the test suite (no handler wired): every
operation fails with a mock failure naming the operation and its arguments, and
`DeletePod "pod1"` returns exactly the text shown. -/
theorem mock_unset_handler_fails_witness :
    fixtureMock.DeletePod fixtureFormatter "pod1" 7 =
      ((none, some (.errorString "vcMock forced failure: DeletePod (&mock): podID: pod1")), 7) ∧
    IsMockFailure (fixtureMock.CreatePod fixtureFormatter "cfg" 7).1.2 "CreatePod" ["cfg"] ∧
    IsMockFailure (fixtureMock.DeletePod fixtureFormatter "pod1" 7).1.2 "DeletePod" ["pod1"] ∧
    IsMockFailure (fixtureMock.StartPod fixtureFormatter "pod1" 7).1.2 "StartPod" ["pod1"] ∧
    IsMockFailure (fixtureMock.StopPod fixtureFormatter "pod1" 7).1.2 "StopPod" ["pod1"] ∧
    IsMockFailure (fixtureMock.RunPod fixtureFormatter "cfg" 7).1.2 "RunPod" ["cfg"] ∧
    IsMockFailure (fixtureMock.ListPod 7).1.2 "ListPod" [] ∧
    IsMockFailure (fixtureMock.StatusPod fixtureFormatter "pod1" 7).1.2 "StatusPod" ["pod1"] ∧
    IsMockFailure (fixtureMock.PausePod fixtureFormatter "pod1" 7).1.2 "PausePod" ["pod1"] ∧
    IsMockFailure (fixtureMock.ResumePod fixtureFormatter "pod1" 7).1.2 "ResumePod" ["pod1"] ∧
    IsMockFailure (fixtureMock.CreateContainer fixtureFormatter "pod1" "cfg" 7).1.2.2
      "CreateContainer" ["pod1", "cfg"] ∧
    IsMockFailure (fixtureMock.DeleteContainer fixtureFormatter "pod1" "c1" 7).1.2
      "DeleteContainer" ["pod1", "c1"] ∧
    IsMockFailure (fixtureMock.StartContainer fixtureFormatter "pod1" "c1" 7).1.2
      "StartContainer" ["pod1", "c1"] ∧
    IsMockFailure (fixtureMock.StopContainer fixtureFormatter "pod1" "c1" 7).1.2
      "StopContainer" ["pod1", "c1"] ∧
    IsMockFailure
      (fixtureMock.EnterContainer fixtureFormatter "pod1" "c1"
        ⟨["ps", "-e"], [], "/", "root", false, "", false⟩ 7).1.2.2.2
      "EnterContainer" ["pod1", "c1", "ps -e"] ∧
    IsMockFailure (fixtureMock.StatusContainer fixtureFormatter "pod1" "c1" 7).1.2
      "StatusContainer" ["pod1", "c1"] ∧
    IsMockFailure (fixtureMock.KillContainer fixtureFormatter "pod1" "c1" 9 true 7).1
      "KillContainer" ["pod1", "c1", "killed", "true"] := by
  have h := mock_unset_handler_fails fixtureFormatter fixtureMock 7
  refine ⟨rfl, ?_, ?_, ?_, ?_, ?_, ?_, ?_, ?_, ?_, ?_, ?_, ?_, ?_, ?_, ?_, ?_⟩
  · obtain ⟨e, he, hf⟩ := h.1 rfl "cfg"
    rw [he]; exact hf
  · obtain ⟨e, he, hf⟩ := h.2.1 rfl "pod1"
    rw [he]; exact hf
  · obtain ⟨e, he, hf⟩ := h.2.2.1 rfl "pod1"
    rw [he]; exact hf
  · obtain ⟨e, he, hf⟩ := h.2.2.2.1 rfl "pod1"
    rw [he]; exact hf
  · obtain ⟨e, he, hf⟩ := h.2.2.2.2.1 rfl "cfg"
    rw [he]; exact hf
  · obtain ⟨e, he, hf⟩ := h.2.2.2.2.2.1 rfl
    rw [he]; exact hf
  · obtain ⟨e, he, hf⟩ := h.2.2.2.2.2.2.1 rfl "pod1"
    rw [he]; exact hf
  · obtain ⟨e, he, hf⟩ := h.2.2.2.2.2.2.2.1 rfl "pod1"
    rw [he]; exact hf
  · obtain ⟨e, he, hf⟩ := h.2.2.2.2.2.2.2.2.1 rfl "pod1"
    rw [he]; exact hf
  · obtain ⟨e, he, hf⟩ := h.2.2.2.2.2.2.2.2.2.1 rfl "pod1" "cfg"
    rw [he]; exact hf
  · obtain ⟨e, he, hf⟩ := h.2.2.2.2.2.2.2.2.2.2.1 rfl "pod1" "c1"
    rw [he]; exact hf
  · obtain ⟨e, he, hf⟩ := h.2.2.2.2.2.2.2.2.2.2.2.1 rfl "pod1" "c1"
    rw [he]; exact hf
  · obtain ⟨e, he, hf⟩ := h.2.2.2.2.2.2.2.2.2.2.2.2.1 rfl "pod1" "c1"
    rw [he]; exact hf
  · obtain ⟨e, he, hf⟩ := h.2.2.2.2.2.2.2.2.2.2.2.2.2.1 rfl "pod1" "c1"
      ⟨["ps", "-e"], [], "/", "root", false, "", false⟩
    rw [he]; exact hf
  · obtain ⟨e, he, hf⟩ := h.2.2.2.2.2.2.2.2.2.2.2.2.2.2.1 rfl "pod1" "c1"
    rw [he]; exact hf
  · obtain ⟨e, he, hf⟩ := h.2.2.2.2.2.2.2.2.2.2.2.2.2.2.2 rfl "pod1" "c1" 9 true
    rw [he]; exact hf

/-- Claim C2. For each of the seventeen operations: when the handler field named
after the operation is set to `f`, the operation is `f` applied to the
arguments received, on the state received; it returns the results and the state
`f` produces, unchanged. The right-hand sides mention no other handler field. -/
theorem mock_set_handler_forwards (F : Formatter T σ) (m : VCMock T σ) (s : σ) :
    (∀ f, m.SetLoggerFunc = some f → ∀ logger, m.SetLogger logger s = f logger s) ∧
    (∀ f, m.CreatePodFunc = some f → ∀ podConfig, m.CreatePod F podConfig s = f podConfig s) ∧
    (∀ f, m.DeletePodFunc = some f → ∀ podID, m.DeletePod F podID s = f podID s) ∧
    (∀ f, m.StartPodFunc = some f → ∀ podID, m.StartPod F podID s = f podID s) ∧
    (∀ f, m.StopPodFunc = some f → ∀ podID, m.StopPod F podID s = f podID s) ∧
    (∀ f, m.RunPodFunc = some f → ∀ podConfig, m.RunPod F podConfig s = f podConfig s) ∧
    (∀ f, m.ListPodFunc = some f → m.ListPod s = f s) ∧
    (∀ f, m.StatusPodFunc = some f → ∀ podID, m.StatusPod F podID s = f podID s) ∧
    (∀ f, m.PausePodFunc = some f → ∀ podID, m.PausePod F podID s = f podID s) ∧
    (∀ f, m.ResumePodFunc = some f → ∀ podID, m.ResumePod F podID s = f podID s) ∧
    (∀ f, m.CreateContainerFunc = some f → ∀ podID containerConfig,
      m.CreateContainer F podID containerConfig s = f podID containerConfig s) ∧
    (∀ f, m.DeleteContainerFunc = some f → ∀ podID containerID,
      m.DeleteContainer F podID containerID s = f podID containerID s) ∧
    (∀ f, m.StartContainerFunc = some f → ∀ podID containerID,
      m.StartContainer F podID containerID s = f podID containerID s) ∧
    (∀ f, m.StopContainerFunc = some f → ∀ podID containerID,
      m.StopContainer F podID containerID s = f podID containerID s) ∧
    (∀ f, m.EnterContainerFunc = some f → ∀ podID containerID cmd,
      m.EnterContainer F podID containerID cmd s = f podID containerID cmd s) ∧
    (∀ f, m.StatusContainerFunc = some f → ∀ podID containerID,
      m.StatusContainer F podID containerID s = f podID containerID s) ∧
    (∀ f, m.KillContainerFunc = some f → ∀ podID containerID signal all,
      m.KillContainer F podID containerID signal all s = f podID containerID signal all s) := by
  refine ⟨?_, ?_, ?_, ?_, ?_, ?_, ?_, ?_, ?_, ?_, ?_, ?_, ?_, ?_, ?_, ?_, ?_⟩
  all_goals
    intro f h
    intros
    simp only [VCMock.SetLogger, VCMock.CreatePod, VCMock.DeletePod, VCMock.StartPod,
      VCMock.StopPod, VCMock.RunPod, VCMock.ListPod, VCMock.StatusPod, VCMock.PausePod,
      VCMock.ResumePod, VCMock.CreateContainer, VCMock.DeleteContainer, VCMock.StartContainer,
      VCMock.StopContainer, VCMock.EnterContainer, VCMock.StatusContainer,
      VCMock.KillContainer, h]

/-- Witness of claim C2 on the fully wired fixture mock: each operation yields
what its own handler yields on the arguments given, and the call counter in the
state advances once. -/
theorem mock_set_handler_forwards_witness :
    fixtureWiredMock.SetLogger "logger" 7 = 8 ∧
    fixtureWiredMock.CreatePod fixtureFormatter "cfg" 7 = ((some "cfg", none), 8) ∧
    fixtureWiredMock.DeletePod fixtureFormatter "pod1" 7 = ((some "pod1", none), 8) ∧
    fixtureWiredMock.StartPod fixtureFormatter "pod1" 7 = ((some "pod1", none), 8) ∧
    fixtureWiredMock.StopPod fixtureFormatter "pod1" 7 = ((some "pod1", none), 8) ∧
    fixtureWiredMock.RunPod fixtureFormatter "cfg" 7 = ((some "cfg", none), 8) ∧
    fixtureWiredMock.ListPod 7 = ((["pod1"], none), 8) ∧
    fixtureWiredMock.StatusPod fixtureFormatter "pod1" 7 = (("pod1", none), 8) ∧
    fixtureWiredMock.PausePod fixtureFormatter "pod1" 7 = ((some "pod1", none), 8) ∧
    fixtureWiredMock.ResumePod fixtureFormatter "pod1" 7 = ((some "pod1", none), 8) ∧
    fixtureWiredMock.CreateContainer fixtureFormatter "pod1" "cfg" 7 =
      ((some "pod1", some "cfg", none), 8) ∧
    fixtureWiredMock.DeleteContainer fixtureFormatter "pod1" "c1" 7 = ((some "c1", none), 8) ∧
    fixtureWiredMock.StartContainer fixtureFormatter "pod1" "c1" 7 = ((some "c1", none), 8) ∧
    fixtureWiredMock.StopContainer fixtureFormatter "pod1" "c1" 7 = ((some "c1", none), 8) ∧
    fixtureWiredMock.EnterContainer fixtureFormatter "pod1" "c1"
        ⟨["ps"], [], "/", "root", false, "", false⟩ 7 =
      ((some "pod1", some "c1", some ⟨100⟩, none), 8) ∧
    fixtureWiredMock.StatusContainer fixtureFormatter "pod1" "c1" 7 =
      ((⟨"c1", ⟨"running"⟩⟩, none), 8) ∧
    fixtureWiredMock.KillContainer fixtureFormatter "pod1" "c1" 9 false 7 = (none, 16) := by
  have h := mock_set_handler_forwards fixtureFormatter fixtureWiredMock 7
  exact ⟨h.1 _ rfl "logger", h.2.1 _ rfl "cfg", h.2.2.1 _ rfl "pod1", h.2.2.2.1 _ rfl "pod1",
    h.2.2.2.2.1 _ rfl "pod1", h.2.2.2.2.2.1 _ rfl "cfg", h.2.2.2.2.2.2.1 _ rfl,
    h.2.2.2.2.2.2.2.1 _ rfl "pod1", h.2.2.2.2.2.2.2.2.1 _ rfl "pod1",
    h.2.2.2.2.2.2.2.2.2.1 _ rfl "pod1", h.2.2.2.2.2.2.2.2.2.2.1 _ rfl "pod1" "cfg",
    h.2.2.2.2.2.2.2.2.2.2.2.1 _ rfl "pod1" "c1", h.2.2.2.2.2.2.2.2.2.2.2.2.1 _ rfl "pod1" "c1",
    h.2.2.2.2.2.2.2.2.2.2.2.2.2.1 _ rfl "pod1" "c1",
    h.2.2.2.2.2.2.2.2.2.2.2.2.2.2.1 _ rfl "pod1" "c1" _,
    h.2.2.2.2.2.2.2.2.2.2.2.2.2.2.2.1 _ rfl "pod1" "c1",
    h.2.2.2.2.2.2.2.2.2.2.2.2.2.2.2.2 _ rfl "pod1" "c1" 9 false⟩

/-! ## `execute` -/

/-- The fields of the parameters that `generateExecParams` takes from the flags
whichever way the process descriptor is built. -/
theorem generateExecParams_frame {x : Externals T} {fs : FileSystem} {context : Context}
    {specProcess : Option CompatOCIProcess} {params : execParams}
    (h : generateExecParams x fs context specProcess = .returned (params, none)) :
    params.detach = context.Bool "detach" ∧ params.pidFile = context.String "pid-file" ∧
      params.console = context.String "console" ∧
      params.consoleSock = context.String "console-socket" := by
  unfold generateExecParams at h
  simp only [] at h
  repeat' split at h
  all_goals simp only [Outcome.returned.injEq, Prod.mk.injEq, reduceCtorEq, and_false,
    and_true] at h
  all_goals subst h
  all_goals exact ⟨rfl, rfl, rfl, rfl⟩

/-- A flag that was not given has the empty string as its value. -/
theorem string_of_not_isSet {context : Context} {name : String}
    (h : context.IsSet name = false) : context.String name = "" := by
  unfold Context.IsSet at h
  unfold Context.String
  cases hl : context.flags.lookup name with
  | none => rfl
  | some v => simp [hl] at h

/-- A repeatable flag that was not given has no values. -/
theorem stringSlice_of_not_isSet {context : Context} {name : String}
    (h : context.IsSet name = false) : context.StringSlice name = [] := by
  unfold Context.IsSet at h
  unfold Context.StringSlice
  cases hl : context.flags.lookup name with
  | none => rfl
  | some v => simp [hl] at h

/-- Counterexample to claim C3 as stated: container "c1" is stopped and the
process flag names a file that does not exist; `execute` returns the error of
`ioutil.ReadFile`, not the state-conflict error. -/
theorem execute_not_running_counterexample :
    (fixtureExternals "stopped" none none).getExistingContainerInfo
        (First fixtureMissingFileContext.Args) = .ok (⟨"c1", ⟨"stopped"⟩⟩, "pod1") ∧
    "stopped" ≠ StateRunning ∧
    (execute (fixtureExternals "stopped" none none) fixtureMissingFileContext []).result =
      .returned (some (.other "open /missing.json: no such file or directory")) ∧
    (execute (fixtureExternals "stopped" none none) fixtureMissingFileContext []).result ≠
      .returned (some (.errorString "Container c1 is not running")) := by
  decide

/-- Claim C3, amended. When the container resolves to a status whose state is not
running, `execute` never calls the backend's EnterContainer nor the PID-file
publisher, leaves the filesystem as it was and does not succeed; and when the
OCI configuration loads and `generateExecParams` succeeds, it returns the
state-conflict error "Container <id> is not running". -/
theorem execute_not_running (x : Externals T) (context : Context) (fs : FileSystem)
    (status : ContainerStatus) (podID : String)
    (hinfo : x.getExistingContainerInfo (First context.Args) = .ok (status, podID))
    (hstate : status.State.State ≠ StateRunning) :
    (execute x context fs).trace = [] ∧ (execute x context fs).fs = fs ∧
    (execute x context fs).result ≠ .returned none ∧
    (∀ ociSpec params, x.GetOCIConfig status = .ok ociSpec →
      generateExecParams x fs context ociSpec.Process = .returned (params, none) →
      (execute x context fs).result =
        .returned (some (.errorString ("Container " ++ status.ID ++ " is not running")))) := by
  generalize hr : execute x context fs = r at *
  unfold execute at hr
  simp only [] at hr
  repeat' split at hr
  all_goals subst hr
  all_goals refine ⟨?_, ?_, ?_, ?_⟩
  all_goals first | (intro o p ho hp; simp_all) | simp_all

/-- Witness of claim C3 (amended): `exec c1 ps -e` on the stopped container "c1". -/
theorem execute_not_running_witness :
    (execute (fixtureExternals "stopped" none none) fixtureContext []).trace = [] ∧
    (execute (fixtureExternals "stopped" none none) fixtureContext []).fs = [] ∧
    (execute (fixtureExternals "stopped" none none) fixtureContext []).result =
      .returned (some (.errorString "Container c1 is not running")) := by
  have h := execute_not_running (fixtureExternals "stopped" none none) fixtureContext []
    ⟨"c1", ⟨"stopped"⟩⟩ "pod1" (by decide) (by decide)
  exact ⟨h.1, h.2.1, h.2.2.2 ⟨some fixtureProcess⟩ _ (by decide) rfl⟩

/-! ## `generateExecParams` -/

/-- Without the process flag, `generateExecParams` succeeds; its result field by field. -/
theorem generateExecParams_baseline (x : Externals T) (fs : FileSystem) (context : Context)
    (baseline : CompatOCIProcess) (hproc : context.IsSet "process" = false) :
    generateExecParams x fs context (some baseline) =
      .returned
        ({ ociProcess :=
            { Terminal := if context.IsSet "tty" = true then context.Bool "tty" else baseline.Terminal
              User :=
                if context.String "user" ≠ "" then ⟨0, 0, [], context.String "user"⟩
                else baseline.User
              Args := Tail context.Args
              Env := baseline.Env ++ context.StringSlice "env"
              Cwd := if context.String "cwd" ≠ "" then context.String "cwd" else baseline.Cwd
              NoNewPrivileges :=
                if context.IsSet "no-new-privs" = true then context.Bool "no-new-privs"
                else baseline.NoNewPrivileges
              ApparmorProfile :=
                if context.String "apparmor" ≠ "" then context.String "apparmor"
                else baseline.ApparmorProfile
              Other := baseline.Other }
           cID := First context.Args
           pidFile := context.String "pid-file"
           console := context.String "console"
           consoleSock := context.String "console-socket"
           detach := context.Bool "detach"
           processLabel := context.String "process-label"
           noSubreaper := context.Bool "no-subreaper" }, none) := by
  by_cases h1 : context.IsSet "tty" = true <;>
  by_cases h2 : context.String "user" = "" <;>
  by_cases h3 : context.String "cwd" = "" <;>
  by_cases h4 : context.IsSet "no-new-privs" = true <;>
  by_cases h5 : context.String "apparmor" = "" <;>
  simp [generateExecParams, hproc, h1, h2, h3, h4, h5, Context.Args]

/-- Claim C4. When the process flag is set and names a readable file whose
content the JSON decoder accepts, `generateExecParams` succeeds and its process
descriptor is the decoded content, for every baseline descriptor (even a nil
one), every other flag and every positional argument. -/
theorem generateExecParams_process_file (x : Externals T) (fs : FileSystem) (context : Context)
    (specProcess : Option CompatOCIProcess) (content : String) (decoded : CompatOCIProcess)
    (hset : context.IsSet "process" = true)
    (hread : ReadFile fs (context.String "process") = .ok content)
    (hjson : x.Unmarshal content = .ok decoded) :
    ∃ params, generateExecParams x fs context specProcess = .returned (params, none) ∧
      params.ociProcess = decoded := by
  unfold generateExecParams
  simp [hset, hread, hjson]

/-- Witness of claim C4: with `--process /process.json --tty --user nobody --cwd
/tmp c1 ls`, the descriptor is the decoded file whether the baseline is the
container's descriptor or nil. -/
theorem generateExecParams_process_file_witness :
    (∃ params, generateExecParams (fixtureExternals "running" none none) fixtureFiles
        fixtureProcessFileContext (some fixtureProcess) = .returned (params, none) ∧
      params.ociProcess = fixtureFileProcess) ∧
    (∃ params, generateExecParams (fixtureExternals "running" none none) fixtureFiles
        fixtureProcessFileContext none = .returned (params, none) ∧
      params.ociProcess = fixtureFileProcess) :=
  ⟨generateExecParams_process_file _ fixtureFiles fixtureProcessFileContext (some fixtureProcess)
      "process-json" fixtureFileProcess (by decide) (by decide) (by decide),
    generateExecParams_process_file _ fixtureFiles fixtureProcessFileContext none
      "process-json" fixtureFileProcess (by decide) (by decide) (by decide)⟩

/-- Counterexample to claim C5 as stated: with `exec --cwd "" c1 ls` the cwd flag
is explicitly set, to the empty string, yet the working directory of the
descriptor stays the baseline's "/home" and does not take the flag's value. -/
theorem generateExecParams_overrides_counterexample :
    fixtureEmptyCwdContext.IsSet "process" = false ∧
    fixtureEmptyCwdContext.IsSet "cwd" = true ∧
    fixtureEmptyCwdContext.String "cwd" = "" ∧
    fixtureProcess.Cwd = "/home" ∧
    ∃ params, generateExecParams (fixtureExternals "running" none none) [] fixtureEmptyCwdContext
        (some fixtureProcess) = .returned (params, none) ∧
      params.ociProcess.Cwd = "/home" ∧
      params.ociProcess.Cwd ≠ fixtureEmptyCwdContext.String "cwd" :=
  ⟨by decide, by decide, by decide, by decide, _, rfl, by decide, by decide⟩

/-- Claim C5, amended. Without the process flag, for every baseline descriptor:
the terminal and no-new-privileges fields take the flag's value exactly when the
flag (tty, no-new-privs) was explicitly set; the user, working directory and
apparmor profile take the flag's value exactly when that value is not empty (the
user becomes a user with that name only); every field not overridden, in
particular every field whose flag was not set, equals the baseline's, and the
remaining fields of the descriptor are the baseline's. -/
theorem generateExecParams_overrides (x : Externals T) (fs : FileSystem) (context : Context)
    (baseline : CompatOCIProcess) (hproc : context.IsSet "process" = false) :
    ∃ params, generateExecParams x fs context (some baseline) = .returned (params, none) ∧
      params.ociProcess.Terminal =
        (if context.IsSet "tty" = true then context.Bool "tty" else baseline.Terminal) ∧
      params.ociProcess.User =
        (if context.String "user" ≠ "" then ⟨0, 0, [], context.String "user"⟩
          else baseline.User) ∧
      params.ociProcess.Cwd =
        (if context.String "cwd" ≠ "" then context.String "cwd" else baseline.Cwd) ∧
      params.ociProcess.NoNewPrivileges =
        (if context.IsSet "no-new-privs" = true then context.Bool "no-new-privs"
          else baseline.NoNewPrivileges) ∧
      params.ociProcess.ApparmorProfile =
        (if context.String "apparmor" ≠ "" then context.String "apparmor"
          else baseline.ApparmorProfile) ∧
      (context.IsSet "user" = false → params.ociProcess.User = baseline.User) ∧
      (context.IsSet "cwd" = false → params.ociProcess.Cwd = baseline.Cwd) ∧
      (context.IsSet "apparmor" = false →
        params.ociProcess.ApparmorProfile = baseline.ApparmorProfile) ∧
      params.ociProcess.Other = baseline.Other := by
  refine ⟨_, generateExecParams_baseline x fs context baseline hproc, rfl, rfl, rfl, rfl, rfl,
    ?_, ?_, ?_, rfl⟩
  all_goals
    intro h
    simp only [string_of_not_isSet h, ne_eq, not_true_eq_false, if_false]

/-- Witness of claim C5 (amended): `exec --tty --user nobody -e A=1 -e B=2 c1 ls
-l` overrides the terminal and the user and keeps the baseline's working
directory, no-new-privileges and apparmor profile. -/
theorem generateExecParams_overrides_witness :
    ∃ params, generateExecParams (fixtureExternals "running" none none) [] fixtureOverrideContext
        (some fixtureProcess) = .returned (params, none) ∧
      params.ociProcess.Terminal = true ∧
      params.ociProcess.User = ⟨0, 0, [], "nobody"⟩ ∧
      params.ociProcess.Cwd = "/home" ∧
      params.ociProcess.NoNewPrivileges = true ∧
      params.ociProcess.ApparmorProfile = "default-profile" := by
  obtain ⟨params, h, h1, h2, h3, h4, h5, -⟩ :=
    generateExecParams_overrides (fixtureExternals "running" none none) []
      fixtureOverrideContext fixtureProcess (by decide)
  exact ⟨params, h, h1, h2, h3, h4, h5⟩

/-- Claim C6. Without the process flag, for every baseline descriptor, the
environment of the descriptor is the baseline's environment followed by the
values of the env flag in the order given: the baseline's list is a prefix of
it, and without the env flag it equals the baseline's. -/
theorem generateExecParams_env (x : Externals T) (fs : FileSystem) (context : Context)
    (baseline : CompatOCIProcess) (hproc : context.IsSet "process" = false) :
    ∃ params, generateExecParams x fs context (some baseline) = .returned (params, none) ∧
      params.ociProcess.Env = baseline.Env ++ context.StringSlice "env" ∧
      baseline.Env <+: params.ociProcess.Env ∧
      (context.IsSet "env" = false → params.ociProcess.Env = baseline.Env) := by
  refine ⟨_, generateExecParams_baseline x fs context baseline hproc, rfl,
    List.prefix_append _ _, fun h => ?_⟩
  simp only [stringSlice_of_not_isSet h, List.append_nil]

/-- Witness of claim C6: `exec --tty --user nobody -e A=1 -e B=2 c1 ls -l` on the
baseline environment `PATH=/bin`. -/
theorem generateExecParams_env_witness :
    ∃ params, generateExecParams (fixtureExternals "running" none none) [] fixtureOverrideContext
        (some fixtureProcess) = .returned (params, none) ∧
      params.ociProcess.Env = ["PATH=/bin", "A=1", "B=2"] := by
  obtain ⟨params, h, h1, -⟩ :=
    generateExecParams_env (fixtureExternals "running" none none) []
      fixtureOverrideContext fixtureProcess (by decide)
  exact ⟨params, h, h1⟩

/-! ## `execute`: the backend call, the PID file and the exit code -/

/-- Claim C7. In every run of `execute`: if EnterContainer was called and
returned an error, `execute` returns exactly that error, the filesystem is
untouched and the call to EnterContainer is the only call made (no PID file is
published, no process is looked up or waited for); and whenever the PID-file
publisher is called, it is called right after a call to EnterContainer that
returned no error and the process whose PID is published. -/
theorem enter_failure_propagates (x : Externals T) (context : Context) (fs : FileSystem) :
    (∀ podID containerID cmd err,
      Event.EnterContainer podID containerID cmd ∈ (execute x context fs).trace →
      (x.EnterContainer podID containerID cmd).2.2.2 = some err →
      (execute x context fs).result = .returned (some err) ∧
        (execute x context fs).fs = fs ∧
        (execute x context fs).trace = [Event.EnterContainer podID containerID cmd]) ∧
    (∀ pidFilePath pid,
      Event.createPIDFile pidFilePath pid ∈ (execute x context fs).trace →
      ∃ podID containerID cmd pod container rest,
        x.EnterContainer podID containerID cmd = (pod, container, some ⟨pid⟩, none) ∧
        (execute x context fs).trace =
          Event.EnterContainer podID containerID cmd ::
            Event.createPIDFile pidFilePath pid :: rest) := by
  constructor
  · intro podID containerID cmd err hcall herr
    generalize hr : execute x context fs = r at *
    unfold execute at hr
    simp only [] at hr
    repeat' split at hr
    all_goals subst hr
    all_goals simp_all
  · intro pidFilePath pid hcall
    generalize hr : execute x context fs = r at *
    unfold execute at hr
    simp only [] at hr
    repeat' split at hr
    all_goals subst hr
    all_goals first
      | (simp at hcall; done)
      | (simp at hcall
         obtain ⟨rfl, rfl⟩ := hcall
         exact ⟨_, _, _, _, _, _, by assumption, rfl⟩)

/-- Witness of claim C7: the backend refuses to enter container "c1"; and, on a
run where it accepts, the PID file is published right after the backend call. -/
theorem enter_failure_propagates_witness :
    ((execute (fixtureExternals "running" (some (.other "backend down")) none)
          fixtureContext []).result = .returned (some (.other "backend down")) ∧
      (execute (fixtureExternals "running" (some (.other "backend down")) none)
          fixtureContext []).fs = [] ∧
      (execute (fixtureExternals "running" (some (.other "backend down")) none)
          fixtureContext []).trace =
        [Event.EnterContainer "pod1" "c1"
          ⟨["ps", "-e"], [⟨"PATH=/bin", ""⟩], "/home", "app", false, "", false⟩]) ∧
    (∃ podID containerID cmd pod container rest,
      (fixtureExternals "running" none none).EnterContainer podID containerID cmd =
          (pod, container, some ⟨100⟩, none) ∧
        (execute (fixtureExternals "running" none none) fixtureContext []).trace =
          Event.EnterContainer podID containerID cmd ::
            Event.createPIDFile "/run/pid" 100 :: rest) :=
  ⟨(enter_failure_propagates (fixtureExternals "running" (some (.other "backend down")) none)
      fixtureContext []).1 "pod1" "c1"
      ⟨["ps", "-e"], [⟨"PATH=/bin", ""⟩], "/home", "app", false, "", false⟩
      (.other "backend down") (by decide) (by decide),
    (enter_failure_propagates (fixtureExternals "running" none none) fixtureContext []).2
      "/run/pid" 100 (by decide)⟩

/-- Claim C8. In every run of `execute` in which the PID-file publisher is called
(so EnterContainer succeeded) and fails, `execute` returns the publisher's error
unmodified, whatever the detach flag, and neither looks up nor waits for the
process: the backend call and the publication are the only calls made. -/
theorem pidfile_failure_propagates (x : Externals T) (context : Context) (fs : FileSystem)
    (pidFilePath : String) (pid : Int) (err : error)
    (hcall : Event.createPIDFile pidFilePath pid ∈ (execute x context fs).trace)
    (herr : (x.createPIDFile fs pidFilePath pid).2 = some err) :
    (execute x context fs).result = .returned (some err) ∧
      (∀ p, Event.FindProcess p ∉ (execute x context fs).trace) ∧
      (∀ p, Event.Wait p ∉ (execute x context fs).trace) ∧
      (execute x context fs).trace.length = 2 := by
  generalize hr : execute x context fs = r at *
  unfold execute at hr
  simp only [] at hr
  repeat' split at hr
  all_goals subst hr
  all_goals simp_all

/-- Witness of claim C8: the PID file cannot be written, with and without
`--detach`. -/
theorem pidfile_failure_propagates_witness :
    (execute (fixtureExternals "running" none (some (.other "permission denied")))
        fixtureContext []).result = .returned (some (.other "permission denied")) ∧
    (execute (fixtureExternals "running" none (some (.other "permission denied")))
        fixtureDetachContext []).result = .returned (some (.other "permission denied")) :=
  ⟨(pidfile_failure_propagates (fixtureExternals "running" none (some (.other "permission denied")))
      fixtureContext [] "/run/pid" 100 (.other "permission denied") (by decide) (by decide)).1,
   (pidfile_failure_propagates (fixtureExternals "running" none (some (.other "permission denied")))
      fixtureDetachContext [] "/run/pid" 100 (.other "permission denied")
      (by decide) (by decide)).1⟩

/-- Claim C9. In every run of `execute` in which the PID-file publisher is called
and succeeds: with detach requested, `execute` returns no error and neither
looks up nor waits for a process; without detach, when looking up the process
with the published PID and waiting for it succeed, `execute` waits for that
process and returns the exit-code error whose code is its exit status. -/
theorem exit_code_after_pidfile (x : Externals T) (context : Context) (fs : FileSystem)
    (pidFilePath : String) (pid : Int)
    (hcall : Event.createPIDFile pidFilePath pid ∈ (execute x context fs).trace)
    (hok : (x.createPIDFile fs pidFilePath pid).2 = none) :
    (context.Bool "detach" = true →
      (execute x context fs).result = .returned none ∧
        (∀ p, Event.FindProcess p ∉ (execute x context fs).trace) ∧
        (∀ p, Event.Wait p ∉ (execute x context fs).trace)) ∧
    (context.Bool "detach" = false → ∀ p ps, x.FindProcess pid = .ok p → x.Wait p = .ok ps →
      (execute x context fs).result = .returned (some (.ExitError "" ps.ExitStatus)) ∧
        Event.Wait p ∈ (execute x context fs).trace) := by
  have hd : ∀ sp params, generateExecParams x fs context sp = .returned (params, none) →
      params.detach = context.Bool "detach" := fun _ _ h => (generateExecParams_frame h).1
  generalize hr : execute x context fs = r at *
  unfold execute at hr
  simp only [] at hr
  repeat' split at hr
  all_goals subst hr
  all_goals first
    | (simp at hcall; done)
    | (have hd1 := hd _ _ (by assumption)
       refine ⟨fun hdet => ?_, fun hdet p ps hfind hwait => ?_⟩ <;> simp_all)

/-- Witness of claim C9: with `--detach` the run succeeds without waiting;
without it the run returns the exit status 3 of process 100. -/
theorem exit_code_after_pidfile_witness :
    ((execute (fixtureExternals "running" none none) fixtureDetachContext []).result =
        .returned none ∧
      (∀ p, Event.FindProcess p ∉
        (execute (fixtureExternals "running" none none) fixtureDetachContext []).trace) ∧
      (∀ p, Event.Wait p ∉
        (execute (fixtureExternals "running" none none) fixtureDetachContext []).trace)) ∧
    ((execute (fixtureExternals "running" none none) fixtureContext []).result =
        .returned (some (.ExitError "" 3)) ∧
      Event.Wait ⟨100⟩ ∈ (execute (fixtureExternals "running" none none) fixtureContext []).trace) :=
  ⟨(exit_code_after_pidfile (fixtureExternals "running" none none) fixtureDetachContext []
      "/run/pid" 100 (by decide) (by decide)).1 (by decide),
   (exit_code_after_pidfile (fixtureExternals "running" none none) fixtureContext []
      "/run/pid" 100 (by decide) (by decide)).2 (by decide) ⟨100⟩ ⟨3⟩ (by decide) (by decide)⟩

/-- Claim C10. In every run of `execute` that calls EnterContainer, with the pod,
container and command of that call: the pod is the one the container resolved
to, the container is the resolved status's ID, and the command is assembled
from the process descriptor `generateExecParams` returned: arguments, working
directory, user name and interactivity are the descriptor's Args, Cwd,
User.Username and Terminal; the environment is what `oci.EnvVars` resolves the
descriptor's Env to; the console is what `setupConsole` resolves the console
flags to; Detach is what the helper `noNeedForOutput` returns on the detach
flag and the descriptor's Terminal, which, for the helper the spec describes,
is true exactly when detach was requested and the descriptor allocates no
terminal. This call is the first call of the run and the only call to the
backend, and `execute` acts on what the backend answers to exactly this
command: its error is returned, a nil process with no error panics, and the
PID of its process is the one published at the path of the pid-file flag. -/
theorem entered_command_assembled (x : Externals T) (context : Context) (fs : FileSystem)
    (podID containerID : String) (cmd : Cmd)
    (hcall : Event.EnterContainer podID containerID cmd ∈ (execute x context fs).trace) :
    (∃ status ociSpec params envVars consolePath,
      x.getExistingContainerInfo (First context.Args) = .ok (status, podID) ∧
      x.GetOCIConfig status = .ok ociSpec ∧
      generateExecParams x fs context ociSpec.Process = .returned (params, none) ∧
      x.EnvVars params.ociProcess.Env = .ok envVars ∧
      x.setupConsole (context.String "console") (context.String "console-socket") =
        .ok consolePath ∧
      containerID = status.ID ∧
      cmd.Args = params.ociProcess.Args ∧
      cmd.WorkDir = params.ociProcess.Cwd ∧
      cmd.User = params.ociProcess.User.Username ∧
      cmd.Interactive = params.ociProcess.Terminal ∧
      cmd.Envs = envVars ∧
      cmd.Console = consolePath ∧
      cmd.Detach = x.noNeedForOutput (context.Bool "detach") params.ociProcess.Terminal ∧
      (x.noNeedForOutput = noNeedForOutput →
        (cmd.Detach = true ↔
          (context.Bool "detach" = true ∧ params.ociProcess.Terminal = false)))) ∧
    (execute x context fs).trace.head? = some (Event.EnterContainer podID containerID cmd) ∧
    (∀ podID1 containerID1 cmd1,
      Event.EnterContainer podID1 containerID1 cmd1 ∈ (execute x context fs).trace →
      podID1 = podID ∧ containerID1 = containerID ∧ cmd1 = cmd) ∧
    (∀ err, (x.EnterContainer podID containerID cmd).2.2.2 = some err →
      (execute x context fs).result = .returned (some err)) ∧
    (∀ pod container, x.EnterContainer podID containerID cmd = (pod, container, none, none) →
      ∃ reason, (execute x context fs).result = .panicked reason) ∧
    (∀ pod container process,
      x.EnterContainer podID containerID cmd = (pod, container, some process, none) →
      Event.createPIDFile (context.String "pid-file") process.Pid ∈
        (execute x context fs).trace) := by
  have hd : ∀ sp params, generateExecParams x fs context sp = .returned (params, none) →
      params.detach = context.Bool "detach" ∧ params.pidFile = context.String "pid-file" ∧
        params.console = context.String "console" ∧
        params.consoleSock = context.String "console-socket" :=
    fun _ _ h => generateExecParams_frame h
  generalize hr : execute x context fs = r at *
  unfold execute at hr
  simp only [] at hr
  repeat' split at hr
  all_goals subst hr
  all_goals first
    | (simp at hcall; done)
    | (simp at hcall
       obtain ⟨rfl, rfl, rfl⟩ := hcall
       obtain ⟨hd1, hd2, hd3, hd4⟩ := hd _ _ (by assumption)
       refine ⟨⟨_, _, _, _, _, by assumption, by assumption, by assumption, by assumption,
         ?_, rfl, rfl, rfl, rfl, rfl, rfl, rfl, ?_, ?_⟩, ?_, ?_, ?_, ?_, ?_⟩
       · rw [← hd3, ← hd4]; assumption
       · rw [hd1]
       · intro hspec
         simp [hspec, noNeedForOutput, hd1]
       · simp
       · intro podID1 containerID1 cmd1 hmem
         simpa using hmem
       · intro err herr
         simp_all
       · intro pod container hnil
         simp_all
       · intro pod container process hproc
         simp_all)

/-- Witness of claim C10: `exec --detach --pid-file /run/pid c1 ps -e` on the
running container "c1", whose descriptor allocates no terminal: the command of
the backend call, and the publication of the PID the backend answers to it. -/
theorem entered_command_assembled_witness :
    (∃ status ociSpec params envVars consolePath,
      (fixtureExternals "running" none none).getExistingContainerInfo
        (First fixtureDetachContext.Args) = .ok (status, "pod1") ∧
      (fixtureExternals "running" none none).GetOCIConfig status = .ok ociSpec ∧
      generateExecParams (fixtureExternals "running" none none) [] fixtureDetachContext
        ociSpec.Process = .returned (params, none) ∧
      (fixtureExternals "running" none none).EnvVars params.ociProcess.Env = .ok envVars ∧
      (fixtureExternals "running" none none).setupConsole
        (fixtureDetachContext.String "console") (fixtureDetachContext.String "console-socket") =
        .ok consolePath ∧
      "c1" = status.ID ∧
      ["ps", "-e"] = params.ociProcess.Args ∧
      "/home" = params.ociProcess.Cwd ∧
      "app" = params.ociProcess.User.Username ∧
      false = params.ociProcess.Terminal ∧
      [⟨"PATH=/bin", ""⟩] = envVars ∧
      "" = consolePath ∧
      ((true : Bool) = true ↔
        (fixtureDetachContext.Bool "detach" = true ∧ params.ociProcess.Terminal = false))) ∧
    (execute (fixtureExternals "running" none none) fixtureDetachContext []).trace.head? =
      some (Event.EnterContainer "pod1" "c1"
        ⟨["ps", "-e"], [⟨"PATH=/bin", ""⟩], "/home", "app", false, "", true⟩) ∧
    Event.createPIDFile "/run/pid" 100 ∈
      (execute (fixtureExternals "running" none none) fixtureDetachContext []).trace := by
  obtain ⟨⟨status, ociSpec, params, envVars, consolePath, h1, h2, h3, h4, h5, h6, h7, h8, h9,
      h10, h11, h12, -, hiff⟩, hhead, -, -, -, hpid⟩ :=
    entered_command_assembled (fixtureExternals "running" none none) fixtureDetachContext []
      "pod1" "c1" ⟨["ps", "-e"], [⟨"PATH=/bin", ""⟩], "/home", "app", false, "", true⟩
      (by decide)
  exact ⟨⟨status, ociSpec, params, envVars, consolePath, h1, h2, h3, h4, h5, h6, h7, h8, h9,
    h10, h11, h12, hiff rfl⟩, hhead, hpid (some "pod1") (some "c1") ⟨100⟩ rfl⟩

/-! ## PID file and cgroup membership files -/

/-- Removing the entries of one path does not change what is found at another. -/
theorem lookup_filter_ne (fs : FileSystem) {filename other : String} (h : other ≠ filename) :
    (fs.filter (fun entry => entry.1 != filename)).lookup other = fs.lookup other := by
  induction fs with
  | nil => rfl
  | cons entry rest ih =>
    obtain ⟨path, content⟩ := entry
    by_cases hp : path = filename
    · subst hp
      have hne : (other == path) = false := by simpa using h
      simp [List.filter_cons, List.lookup_cons, hne, ih]
    · by_cases ho : other = path
      · subst ho
        simp [List.filter_cons, List.lookup_cons, hp]
      · have hne : (other == path) = false := by simpa using ho
        simp [List.filter_cons, List.lookup_cons, hp, hne, ih]

/-- After a successful write the file holds exactly the content written. -/
theorem readFile_writeFile_same {host : Host} {fs fs1 : FileSystem} {filename content : String}
    (h : WriteFile host fs filename content = (fs1, none)) :
    ReadFile fs1 filename = .ok content := by
  unfold WriteFile at h
  split at h
  · simp at h
  · simp only [Prod.mk.injEq, and_true] at h
    subst h
    simp [ReadFile, List.lookup_cons]

/-- A successful write leaves every other file as it was. -/
theorem readFile_writeFile_other {host : Host} {fs fs1 : FileSystem}
    {filename content other : String}
    (h : WriteFile host fs filename content = (fs1, none)) (hne : other ≠ filename) :
    ReadFile fs1 other = ReadFile fs other := by
  unfold WriteFile at h
  split at h
  · simp at h
  · simp only [Prod.mk.injEq, and_true] at h
    subst h
    have hb : (other == filename) = false := by simpa using hne
    simp [ReadFile, List.lookup_cons, hb, lookup_filter_ne fs hne]

/-- A successful write of some content keeps every file that already holds that
content. -/
theorem readFile_writeFile_keeps {host : Host} {fs fs1 : FileSystem}
    {filename content other : String}
    (h : WriteFile host fs filename content = (fs1, none))
    (hold : ReadFile fs other = .ok content) : ReadFile fs1 other = .ok content := by
  by_cases hne : other = filename
  · subst hne
    exact readFile_writeFile_same h
  · rw [readFile_writeFile_other h hne]
    exact hold

/-- A successful run of `createCgroupsFiles` keeps every file that already holds
the PID's decimal string. -/
theorem createCgroupsFiles_keeps (host : Host) (pid : Int) (other : String) :
    ∀ (cgroupsPathList : List String) (fs fs1 : FileSystem),
      createCgroupsFiles host fs cgroupsPathList pid = (fs1, none) →
      ReadFile fs other = .ok (fmtInt pid) → ReadFile fs1 other = .ok (fmtInt pid) := by
  intro cgroupsPathList
  induction cgroupsPathList with
  | nil =>
    intro fs fs1 h hold
    simp only [createCgroupsFiles, Prod.mk.injEq, and_true] at h
    subst h
    exact hold
  | cons cgroupsPath rest ih =>
    intro fs fs1 h hold
    unfold createCgroupsFiles at h
    split at h
    · simp at h
    · rename_i fsa hmk
      split at h
      · simp at h
      · rename_i fsb hw1
        split at h
        · simp at h
        · rename_i fsc hw2
          have hfs : fsa = fs := by
            unfold MkdirAll at hmk
            split at hmk <;> simp_all
          subst hfs
          exact ih _ _ h (readFile_writeFile_keeps hw2 (readFile_writeFile_keeps hw1 hold))

/-- A successful run of `createCgroupsFiles` leaves both membership files of
every given path holding the PID's decimal string. -/
theorem createCgroupsFiles_reads (host : Host) (pid : Int) :
    ∀ (cgroupsPathList : List String) (fs fs1 : FileSystem),
      createCgroupsFiles host fs cgroupsPathList pid = (fs1, none) →
      ∀ cgroupsPath ∈ cgroupsPathList,
        ReadFile fs1 (host.Join cgroupsPath cgroupsTasksFile) = .ok (fmtInt pid) ∧
        ReadFile fs1 (host.Join cgroupsPath cgroupsProcsFile) = .ok (fmtInt pid) := by
  intro cgroupsPathList
  induction cgroupsPathList with
  | nil =>
    intro fs fs1 _ cgroupsPath hmem
    simp at hmem
  | cons first rest ih =>
    intro fs fs1 h cgroupsPath hmem
    unfold createCgroupsFiles at h
    split at h
    · simp at h
    · rename_i fsa hmk
      split at h
      · simp at h
      · rename_i fsb hw1
        split at h
        · simp at h
        · rename_i fsc hw2
          rcases List.mem_cons.1 hmem with rfl | hrest
          · exact ⟨createCgroupsFiles_keeps host pid _ _ _ _ h
                (readFile_writeFile_keeps hw2 (readFile_writeFile_same hw1)),
              createCgroupsFiles_keeps host pid _ _ _ _ h (readFile_writeFile_same hw2)⟩
          · exact ih _ _ h cgroupsPath hrest

/-- On a host that reports no I/O error, `createCgroupsFiles` succeeds. -/
theorem createCgroupsFiles_succeeds (host : Host) (pid : Int)
    (hmk : ∀ path, host.mkdirError path = none) (hwr : ∀ path, host.writeError path = none) :
    ∀ (cgroupsPathList : List String) (fs : FileSystem),
      (createCgroupsFiles host fs cgroupsPathList pid).2 = none := by
  intro cgroupsPathList
  induction cgroupsPathList with
  | nil => intro fs; rfl
  | cons first rest ih =>
    intro fs
    simp only [createCgroupsFiles, MkdirAll, WriteFile, hmk, hwr]
    exact ih _

/-- Claim C11. For every PID and every filesystem: with the empty path,
`createPIDFile` returns success and leaves the filesystem as it was; with a
non-empty path, after a successful call the file at the path holds exactly the
PID's decimal string, whatever it held before, and after a second successful
call with another PID it holds exactly that PID's decimal string; the call
succeeds whenever the host accepts the write; and PID 100 gives "100". -/
theorem createPIDFile_publishes (host : Host) (fs : FileSystem) (pid : Int) :
    createPIDFile host fs "" pid = (fs, none) ∧
    (∀ pidFilePath fs1, pidFilePath ≠ "" →
      createPIDFile host fs pidFilePath pid = (fs1, none) →
      ReadFile fs1 pidFilePath = .ok (fmtInt pid) ∧
        ∀ pid2 fs2, createPIDFile host fs1 pidFilePath pid2 = (fs2, none) →
          ReadFile fs2 pidFilePath = .ok (fmtInt pid2)) ∧
    (∀ pidFilePath, host.writeError pidFilePath = none →
      (createPIDFile host fs pidFilePath pid).2 = none) ∧
    fmtInt 100 = "100" := by
  refine ⟨by simp [createPIDFile], ?_, ?_, by decide⟩
  · intro pidFilePath fs1 hne h
    simp only [createPIDFile, hne, if_false] at h
    refine ⟨readFile_writeFile_same h, ?_⟩
    intro pid2 fs2 h2
    simp only [createPIDFile, hne, if_false] at h2
    exact readFile_writeFile_same h2
  · intro pidFilePath hw
    unfold createPIDFile
    split
    · rfl
    · simp [WriteFile, hw]

/-- Witness of claim C11: publishing PID 100 and then PID 4321 at "/run/pid", over
a file that held "7", leaves "100" and then "4321"; the empty path changes
nothing. -/
theorem createPIDFile_publishes_witness :
    createPIDFile fixtureHost [("/run/pid", "7")] "" 100 = ([("/run/pid", "7")], none) ∧
    createPIDFile fixtureHost [("/run/pid", "7")] "/run/pid" 100 = ([("/run/pid", "100")], none) ∧
    ReadFile [("/run/pid", "100")] "/run/pid" = .ok (fmtInt 100) ∧
    createPIDFile fixtureHost [("/run/pid", "100")] "/run/pid" 4321 =
      ([("/run/pid", "4321")], none) ∧
    ReadFile [("/run/pid", "4321")] "/run/pid" = .ok (fmtInt 4321) := by
  have h := createPIDFile_publishes fixtureHost [("/run/pid", "7")] 100
  have h1 : createPIDFile fixtureHost [("/run/pid", "7")] "/run/pid" 100 =
      ([("/run/pid", "100")], none) := by decide
  have h2 : createPIDFile fixtureHost [("/run/pid", "100")] "/run/pid" 4321 =
      ([("/run/pid", "4321")], none) := by decide
  have h3 := h.2.1 "/run/pid" _ (by decide) h1
  exact ⟨h.1, h1, h3.1, h2, h3.2 4321 _ h2⟩

/-- Claim C12. For every PID and every filesystem: with no cgroup path,
`createCgroupsFiles` returns success and leaves the filesystem as it was; after
a successful call, the tasks file and the procs file under every given path
exist and each holds exactly the PID's decimal string; the call succeeds on a
host that reports no I/O error; and PID 100 gives "100". -/
theorem createCgroupsFiles_writes (host : Host) (fs : FileSystem) (pid : Int) :
    createCgroupsFiles host fs [] pid = (fs, none) ∧
    (∀ cgroupsPathList fs1, createCgroupsFiles host fs cgroupsPathList pid = (fs1, none) →
      ∀ cgroupsPath ∈ cgroupsPathList,
        ReadFile fs1 (host.Join cgroupsPath cgroupsTasksFile) = .ok (fmtInt pid) ∧
        ReadFile fs1 (host.Join cgroupsPath cgroupsProcsFile) = .ok (fmtInt pid)) ∧
    ((∀ path, host.mkdirError path = none) → (∀ path, host.writeError path = none) →
      ∀ cgroupsPathList, (createCgroupsFiles host fs cgroupsPathList pid).2 = none) ∧
    fmtInt 100 = "100" :=
  ⟨rfl, fun cgroupsPathList fs1 h => createCgroupsFiles_reads host pid cgroupsPathList fs fs1 h,
    fun hmk hwr cgroupsPathList => createCgroupsFiles_succeeds host pid hmk hwr cgroupsPathList fs,
    by decide⟩

/-- Witness of claim C12: PID 100 joins the two cgroups "/cg/cpu" and "/cg/mem"
on a filesystem whose "/cg/cpu/tasks" held "7". -/
theorem createCgroupsFiles_writes_witness :
    (createCgroupsFiles fixtureHost [("/cg/cpu/tasks", "7")] ["/cg/cpu", "/cg/mem"] 100).2 = none ∧
    ReadFile (createCgroupsFiles fixtureHost [("/cg/cpu/tasks", "7")] ["/cg/cpu", "/cg/mem"] 100).1
      "/cg/cpu/tasks" = .ok "100" ∧
    ReadFile (createCgroupsFiles fixtureHost [("/cg/cpu/tasks", "7")] ["/cg/cpu", "/cg/mem"] 100).1
      "/cg/mem/cgroup.procs" = .ok "100" := by
  have h := createCgroupsFiles_writes fixtureHost [("/cg/cpu/tasks", "7")] 100
  have hrun : createCgroupsFiles fixtureHost [("/cg/cpu/tasks", "7")] ["/cg/cpu", "/cg/mem"] 100 =
      ((createCgroupsFiles fixtureHost [("/cg/cpu/tasks", "7")] ["/cg/cpu", "/cg/mem"] 100).1,
        none) := by decide
  exact ⟨by decide, (h.2.1 _ _ hrun "/cg/cpu" (by decide)).1,
    (h.2.1 _ _ hrun "/cg/mem" (by decide)).2⟩

/-! ## `create` -/

/-- Claim C13. For either value of detach and every other argument: when the
container ID is empty, or the bundle path is empty, or the runtime configuration
is the zero value, `create` returns an error, makes no call to the backend and
leaves the backend's state and the filesystem as they were; and with all three
present, when the backend fails to create the container, `create` returns the
backend's error. -/
theorem create_validates {R : Type} [DecidableEq R] (host : Host) (zeroConfig : R)
    (createInBackend : String → String → String → Bool → R → σ → Except error Process × σ)
    (cgroupsPathList : List String)
    (containerID bundlePath console pidFilePath : String) (detach : Bool) (runtimeConfig : R)
    (fs : FileSystem) (s : σ) :
    (containerID = "" ∨ bundlePath = "" ∨ runtimeConfig = zeroConfig →
      (create host zeroConfig createInBackend cgroupsPathList containerID bundlePath console
          pidFilePath detach runtimeConfig fs s).result.isSome = true ∧
      (create host zeroConfig createInBackend cgroupsPathList containerID bundlePath console
          pidFilePath detach runtimeConfig fs s).backendCalls = 0 ∧
      (create host zeroConfig createInBackend cgroupsPathList containerID bundlePath console
          pidFilePath detach runtimeConfig fs s).backend = s ∧
      (create host zeroConfig createInBackend cgroupsPathList containerID bundlePath console
          pidFilePath detach runtimeConfig fs s).fs = fs) ∧
    (containerID ≠ "" → bundlePath ≠ "" → runtimeConfig ≠ zeroConfig →
      ∀ err s1,
        createInBackend containerID bundlePath console detach runtimeConfig s = (.error err, s1) →
        (create host zeroConfig createInBackend cgroupsPathList containerID bundlePath console
          pidFilePath detach runtimeConfig fs s).result = some err) := by
  constructor
  · intro h
    unfold create
    split_ifs with h1 h2 h3
    · exact ⟨rfl, rfl, rfl, rfl⟩
    · exact ⟨rfl, rfl, rfl, rfl⟩
    · exact ⟨rfl, rfl, rfl, rfl⟩
    · rcases h with h | h | h
      · exact absurd h h1
      · exact absurd h h2
      · exact absurd h h3
  · intro h1 h2 h3 err s1 hb
    simp only [create, h1, h2, h3, if_false, hb]

/-- Witness of claim C13, on the rows of the test suite with the mock backend that
has no handler wired: an empty container ID (with and without detach), an empty
bundle path and a zero configuration fail without a call to the backend; the
fully populated arguments fail with the mock's error. -/
theorem create_validates_witness :
    (create fixtureHost "" (fixtureCreateBackend fixtureMock) [] "" "" "" "" false ""
        [] 7).result.isSome = true ∧
    (create fixtureHost "" (fixtureCreateBackend fixtureMock) [] "" "" "" "" true ""
        [] 7).backendCalls = 0 ∧
    (create fixtureHost "" (fixtureCreateBackend fixtureMock) [] "foo" "" "" "" true ""
        [] 7).result.isSome = true ∧
    (create fixtureHost "" (fixtureCreateBackend fixtureWiredMock) [] "c1" "/bundle" "/dev/pts/999"
        "/run/pid" false "" [] 7).backend = 7 ∧
    (create fixtureHost "" (fixtureCreateBackend fixtureMock) [] "c1" "/bundle" "/dev/pts/999"
        "/run/pid" false "config" [] 7).result =
      some (.errorString "vcMock forced failure: CreatePod (&mock): podConfig: /bundle") :=
  ⟨((create_validates fixtureHost "" (fixtureCreateBackend fixtureMock) [] "" "" "" ""
        false "" [] 7).1 (Or.inl rfl)).1,
    ((create_validates fixtureHost "" (fixtureCreateBackend fixtureMock) [] "" "" "" ""
        true "" [] 7).1 (Or.inl rfl)).2.1,
    ((create_validates fixtureHost "" (fixtureCreateBackend fixtureMock) [] "foo" "" "" ""
        true "" [] 7).1 (Or.inr (Or.inl rfl))).1,
    ((create_validates fixtureHost "" (fixtureCreateBackend fixtureWiredMock) [] "c1" "/bundle"
        "/dev/pts/999" "/run/pid" false "" [] 7).1 (Or.inr (Or.inr rfl))).2.2.1,
    (create_validates fixtureHost "" (fixtureCreateBackend fixtureMock) [] "c1" "/bundle"
        "/dev/pts/999" "/run/pid" false "config" [] 7).2 (by decide) (by decide) (by decide)
        _ 7 (by decide)⟩

end Runtime
